import Mathlib

set_option maxRecDepth 10000

/-
A verification development for the AegisCrypt backend encryption core
(backend/app/core/crypto.py, backend/app/services/integrity_service.py,
backend/app/services/policy_engine.py, backend/app/services/encryption_service.py,
backend/app/services/share_service.py, backend/app/models/share_link.py,
backend/app/models/encryption_policy.py).

Modelling conventions:
- Python bytes are modelled as List Nat with every element < 256 (stated as a
  hypothesis where it matters).  Python str is modelled as List Nat of Unicode
  code points (PyStr); textual identifiers such as algorithm names and
  exception messages are modelled as Lean String.
- Python exceptions are modelled by the PyErr inductive; fallible functions
  return Except PyErr.  PyErr also carries constructors for the error kinds
  named by the design documentation (AuthenticationError, KeyUnwrapError,
  AccessDeniedError, ConfigurationError) so that specification-level
  statements about error kinds can be expressed; the source never raises
  them, which is exactly what several theorems below establish.
- External-library primitives (the cryptography package's AESGCM,
  ChaCha20Poly1305, RSA-OAEP/PSS, and hashlib's SHA-256/512, pbkdf2_hmac)
  are not part of this repository; they are modelled from the spec as
  executable idealized functions that satisfy the documented interface
  (deterministic round trip, tag verification, key matching).  Randomness
  (os.urandom, OAEP/PSS salts) is threaded explicitly as entropy parameters.
-/

/-- Python bytes / str code-point sequences. -/
abbrev Bytes : Type := List Nat

/-- Python str as a sequence of Unicode code points. -/
abbrev PyStr : Type := List Nat

/-- The Python exceptions relevant to the embedded code, together with the
error kinds the design documentation names (which the source never raises). -/
inductive PyErr where
  | valueError (msg : String)
  | typeError (msg : String)
  | keyError (key : String)
  | invalidTag
  | unicodeDecodeError
  | unicodeEncodeError
  | authenticationError (msg : String)
  | keyUnwrapError (msg : String)
  | accessDeniedError (msg : String)
  | configurationError (msg : String)
deriving DecidableEq, Repr

/-- Python str(e) for the exceptions above (used by f-string interpolation
in share_service.decrypt_share). -/
def err_str : PyErr → String
  | .valueError msg => msg
  | .typeError msg => msg
  | .keyError key => key
  | .invalidTag => "InvalidTag"
  | .unicodeDecodeError => "utf-8 codec cannot decode"
  | .unicodeEncodeError => "latin-1 codec cannot encode"
  | .authenticationError msg => msg
  | .keyUnwrapError msg => msg
  | .accessDeniedError msg => msg
  | .configurationError msg => msg

deriving instance DecidableEq for Except

/-- Python str.upper restricted to the code points Lean's Char.toUpper covers. -/
def py_upper (s : String) : String := String.mk (s.data.map Char.toUpper)

/-- Python str.lower restricted to the code points Lean's Char.toLower covers. -/
def py_lower (s : String) : String := String.mk (s.data.map Char.toLower)

/-- Whether the first list starts with the second (helper for substring tests). -/
def starts_with : List Char → List Char → Bool
  | _, [] => true
  | [], _ :: _ => false
  | a :: as, b :: bs => a = b && starts_with as bs

/-- Python "needle in haystack" on strings. -/
def contains_sub : List Char → List Char → Bool
  | hay, needle =>
    if starts_with hay needle then true
    else match hay with
      | [] => false
      | _ :: t => contains_sub t needle

/-- Python "sub in s". -/
def str_contains (s sub : String) : Bool := contains_sub s.data sub.data

/- ==================================================================
   base64 (models Python's base64.b64encode / b64decode on the standard
   alphabet; the decoder is lenient on malformed input, which the embedded
   code never produces).
   ================================================================== -/

/-- Standard base64 alphabet: 6-bit value to ASCII code. -/
def b64_char (k : Nat) : Nat :=
  if k < 26 then 65 + k
  else if k < 52 then 97 + (k - 26)
  else if k < 62 then 48 + (k - 52)
  else if k = 62 then 43
  else 47

/-- Inverse of the base64 alphabet (0 on non-alphabet input). -/
def b64_char_inv (c : Nat) : Nat :=
  if 65 ≤ c ∧ c ≤ 90 then c - 65
  else if 97 ≤ c ∧ c ≤ 122 then c - 97 + 26
  else if 48 ≤ c ∧ c ≤ 57 then c - 48 + 52
  else if c = 43 then 62
  else if c = 47 then 63
  else 0

theorem b64_char_inv_char : ∀ k < 64, b64_char_inv (b64_char k) = k := by decide

theorem b64_char_ne_pad : ∀ k < 64, b64_char k ≠ 61 := by decide

theorem b64_char_lt (k : Nat) : b64_char k < 128 := by
  unfold b64_char
  split
  · omega
  · split
    · omega
    · split
      · omega
      · split <;> omega

/-- base64 encoding of a byte sequence (result is the ASCII text, '=' = 61). -/
def b64encode : Bytes → Bytes
  | [] => []
  | [a] => [b64_char (a / 4), b64_char (a % 4 * 16), 61, 61]
  | [a, b] => [b64_char (a / 4), b64_char (a % 4 * 16 + b / 16), b64_char (b % 16 * 4), 61]
  | a :: b :: c :: rest =>
      b64_char (a / 4) :: b64_char (a % 4 * 16 + b / 16) :: b64_char (b % 16 * 4 + c / 64) ::
        b64_char (c % 64) :: b64encode rest

/-- base64 decoding (lenient: ignores trailing garbage and non-alphabet chars). -/
def b64decode : Bytes → Bytes
  | c1 :: c2 :: c3 :: c4 :: rest =>
      let x1 := b64_char_inv c1
      let x2 := b64_char_inv c2
      if c3 = 61 then [x1 * 4 + x2 / 16]
      else
        let x3 := b64_char_inv c3
        if c4 = 61 then [x1 * 4 + x2 / 16, x2 % 16 * 16 + x3 / 4]
        else (x1 * 4 + x2 / 16) :: (x2 % 16 * 16 + x3 / 4) ::
          (x3 % 4 * 64 + b64_char_inv c4) :: b64decode rest
  | _ => []

theorem b64decode_b64encode (l : Bytes) (h : ∀ x ∈ l, x < 256) :
    b64decode (b64encode l) = l := by
  match l with
  | [] => rfl
  | [a] =>
    have ha : a < 256 := h a (by simp)
    have h1 : a / 4 < 64 := by omega
    have h2 : a % 4 * 16 < 64 := by omega
    simp only [b64encode, b64decode, if_true]
    rw [b64_char_inv_char _ h1, b64_char_inv_char _ h2]
    simp only [List.cons.injEq, and_true]
    omega
  | [a, b] =>
    have ha : a < 256 := h a (by simp)
    have hb : b < 256 := h b (by simp)
    have h1 : a / 4 < 64 := by omega
    have h2 : a % 4 * 16 + b / 16 < 64 := by omega
    have h3 : b % 16 * 4 < 64 := by omega
    simp only [b64encode, b64decode]
    rw [if_neg (b64_char_ne_pad _ h3)]
    simp only [if_true]
    rw [b64_char_inv_char _ h1, b64_char_inv_char _ h2, b64_char_inv_char _ h3]
    simp only [List.cons.injEq, and_true]
    omega
  | a :: b :: c :: rest =>
    have ha : a < 256 := h a (by simp)
    have hb : b < 256 := h b (by simp)
    have hc : c < 256 := h c (by simp)
    have h1 : a / 4 < 64 := by omega
    have h2 : a % 4 * 16 + b / 16 < 64 := by omega
    have h3 : b % 16 * 4 + c / 64 < 64 := by omega
    have h4 : c % 64 < 64 := by omega
    have ih := b64decode_b64encode rest (fun x hx => h x (by simp [hx]))
    simp only [b64encode, b64decode]
    rw [if_neg (b64_char_ne_pad _ h3), if_neg (b64_char_ne_pad _ h4)]
    rw [b64_char_inv_char _ h1, b64_char_inv_char _ h2, b64_char_inv_char _ h3,
      b64_char_inv_char _ h4, ih]
    simp only [List.cons.injEq, and_true]
    omega

theorem b64encode_lt_128 (l : Bytes) : ∀ x ∈ b64encode l, x < 128 := by
  match l with
  | [] => simp [b64encode]
  | [a] =>
    intro x hx
    simp only [b64encode, List.mem_cons, List.not_mem_nil, or_false] at hx
    rcases hx with h | h | h | h <;> subst h
    · exact b64_char_lt _
    · exact b64_char_lt _
    · omega
    · omega
  | [a, b] =>
    intro x hx
    simp only [b64encode, List.mem_cons, List.not_mem_nil, or_false] at hx
    rcases hx with h | h | h | h <;> subst h
    · exact b64_char_lt _
    · exact b64_char_lt _
    · exact b64_char_lt _
    · omega
  | a :: b :: c :: rest =>
    intro x hx
    simp only [b64encode, List.mem_cons] at hx
    rcases hx with h | h | h | h | h
    · exact h ▸ b64_char_lt _
    · exact h ▸ b64_char_lt _
    · exact h ▸ b64_char_lt _
    · exact h ▸ b64_char_lt _
    · exact b64encode_lt_128 rest x h

/- ==================================================================
   UTF-8 (models Python str.encode('utf-8') / bytes.decode('utf-8');
   the decoder is lenient on overlong forms, which the embedded code
   never produces).
   ================================================================== -/

/-- UTF-8 encoding of a single code point. -/
def utf8_encode_char (c : Nat) : Bytes :=
  if c < 128 then [c]
  else if c < 2048 then [192 + c / 64, 128 + c % 64]
  else if c < 65536 then [224 + c / 4096, 128 + c / 64 % 64, 128 + c % 64]
  else [240 + c / 262144, 128 + c / 4096 % 64, 128 + c / 64 % 64, 128 + c % 64]

/-- Python str.encode('utf-8'). -/
def utf8_encode : PyStr → Bytes
  | [] => []
  | c :: t => utf8_encode_char c ++ utf8_encode t

/-- Parse one UTF-8 encoded code point from the front of a byte sequence,
returning the code point and the number of continuation bytes consumed
(total bytes consumed is that number plus one); none on malformed input. -/
def utf8_parse_char : Bytes → Option (Nat × Nat)
  | [] => none
  | b1 :: t1 =>
    if b1 < 128 then some (b1, 0)
    else if b1 < 192 then none
    else if b1 < 224 then
      let b2 := t1.getD 0 0
      if 1 ≤ t1.length ∧ 128 ≤ b2 ∧ b2 < 192 then
        some ((b1 - 192) * 64 + (b2 - 128), 1)
      else none
    else if b1 < 240 then
      let b2 := t1.getD 0 0
      let b3 := t1.getD 1 0
      if 2 ≤ t1.length ∧ 128 ≤ b2 ∧ b2 < 192 ∧ 128 ≤ b3 ∧ b3 < 192 then
        some ((b1 - 224) * 4096 + (b2 - 128) * 64 + (b3 - 128), 2)
      else none
    else if b1 < 248 then
      let b2 := t1.getD 0 0
      let b3 := t1.getD 1 0
      let b4 := t1.getD 2 0
      if 3 ≤ t1.length ∧ 128 ≤ b2 ∧ b2 < 192 ∧ 128 ≤ b3 ∧ b3 < 192 ∧ 128 ≤ b4 ∧ b4 < 192 then
        some ((b1 - 240) * 262144 + (b2 - 128) * 4096 + (b3 - 128) * 64 + (b4 - 128), 3)
      else none
    else none

/-- Recursion core of utf8_decode; the fuel argument (an upper bound on the
input length) makes the recursion structural. -/
def utf8_decode_fuel : Nat → Bytes → Option PyStr
  | _, [] => some []
  | 0, _ :: _ => none
  | f + 1, b1 :: t1 =>
    match utf8_parse_char (b1 :: t1) with
    | none => none
    | some (c, extra) => (utf8_decode_fuel f (t1.drop extra)).map (fun s => c :: s)

/-- Python bytes.decode('utf-8') (none models UnicodeDecodeError; lenient on
overlong forms, which the embedded code never produces). -/
def utf8_decode (l : Bytes) : Option PyStr := utf8_decode_fuel l.length l

theorem utf8_decode_fuel_irrel (f1 : Nat) :
    ∀ (f2 : Nat) (l : Bytes), l.length ≤ f1 → l.length ≤ f2 →
      utf8_decode_fuel f1 l = utf8_decode_fuel f2 l := by
  induction f1 with
  | zero =>
    intro f2 l h1 h2
    match l with
    | [] =>
      match f2 with
      | 0 => rfl
      | g + 1 => rfl
    | b :: t => simp at h1
  | succ g1 ih =>
    intro f2 l h1 h2
    match l with
    | [] =>
      match f2 with
      | 0 => rfl
      | g + 1 => rfl
    | b :: t =>
      match f2 with
      | 0 => simp at h2
      | g2 + 1 =>
        simp only [utf8_decode_fuel]
        match utf8_parse_char (b :: t) with
        | none => rfl
        | some (c, extra) =>
          simp only
          rw [ih g2 (t.drop extra)
            (by simp only [List.length_drop]; simp only [List.length_cons] at h1; omega)
            (by simp only [List.length_drop]; simp only [List.length_cons] at h2; omega)]

theorem utf8_decode_cons1 (b : Nat) (t : Bytes) (h : b < 128) :
    utf8_decode (b :: t) = (utf8_decode t).map (fun s => b :: s) := by
  simp only [utf8_decode, List.length_cons, utf8_decode_fuel]
  simp only [utf8_parse_char, if_pos h, List.drop_zero]

theorem utf8_decode_cons2 (b1 b2 : Nat) (t : Bytes)
    (h1 : 192 ≤ b1) (h2 : b1 < 224) (h3 : 128 ≤ b2) (h4 : b2 < 192) :
    utf8_decode (b1 :: b2 :: t) =
      (utf8_decode t).map (fun s => ((b1 - 192) * 64 + (b2 - 128)) :: s) := by
  simp only [utf8_decode, List.length_cons, utf8_decode_fuel]
  simp only [utf8_parse_char, if_neg (show ¬ b1 < 128 by omega),
    if_neg (show ¬ b1 < 192 by omega), if_pos h2, List.getD_cons_zero, List.length_cons]
  rw [if_pos (by exact ⟨by omega, h3, h4⟩)]
  simp only [List.drop_succ_cons, List.drop_zero]
  rw [utf8_decode_fuel_irrel (t.length + 1) t.length t (by omega) (by omega)]

theorem utf8_decode_cons3 (b1 b2 b3 : Nat) (t : Bytes)
    (h1 : 224 ≤ b1) (h2 : b1 < 240) (h3 : 128 ≤ b2) (h4 : b2 < 192)
    (h5 : 128 ≤ b3) (h6 : b3 < 192) :
    utf8_decode (b1 :: b2 :: b3 :: t) =
      (utf8_decode t).map (fun s => ((b1 - 224) * 4096 + (b2 - 128) * 64 + (b3 - 128)) :: s) := by
  simp only [utf8_decode, List.length_cons, utf8_decode_fuel]
  simp only [utf8_parse_char, if_neg (show ¬ b1 < 128 by omega),
    if_neg (show ¬ b1 < 192 by omega), if_neg (show ¬ b1 < 224 by omega), if_pos h2,
    List.getD_cons_zero, List.getD_cons_succ, List.length_cons]
  rw [if_pos (by exact ⟨by omega, h3, h4, h5, h6⟩)]
  simp only [List.drop_succ_cons, List.drop_zero]
  rw [utf8_decode_fuel_irrel (t.length + 1 + 1) t.length t (by omega) (by omega)]

theorem utf8_decode_cons4 (b1 b2 b3 b4 : Nat) (t : Bytes)
    (h1 : 240 ≤ b1) (h2 : b1 < 248) (h3 : 128 ≤ b2) (h4 : b2 < 192)
    (h5 : 128 ≤ b3) (h6 : b3 < 192) (h7 : 128 ≤ b4) (h8 : b4 < 192) :
    utf8_decode (b1 :: b2 :: b3 :: b4 :: t) =
      (utf8_decode t).map
        (fun s => ((b1 - 240) * 262144 + (b2 - 128) * 4096 + (b3 - 128) * 64 + (b4 - 128)) :: s) := by
  simp only [utf8_decode, List.length_cons, utf8_decode_fuel]
  simp only [utf8_parse_char, if_neg (show ¬ b1 < 128 by omega),
    if_neg (show ¬ b1 < 192 by omega), if_neg (show ¬ b1 < 224 by omega),
    if_neg (show ¬ b1 < 240 by omega), if_pos h2,
    List.getD_cons_zero, List.getD_cons_succ, List.length_cons]
  rw [if_pos (by exact ⟨by omega, h3, h4, h5, h6, h7, h8⟩)]
  simp only [List.drop_succ_cons, List.drop_zero]
  rw [utf8_decode_fuel_irrel (t.length + 1 + 1 + 1) t.length t (by omega) (by omega)]

theorem utf8_encode_char_lt_256 (c : Nat) (hc : c < 1114112) :
    ∀ x ∈ utf8_encode_char c, x < 256 := by
  intro x hx
  unfold utf8_encode_char at hx
  split at hx
  · simp at hx; omega
  · split at hx
    · simp at hx; rcases hx with h | h <;> omega
    · split at hx
      · simp at hx; rcases hx with h | h | h <;> omega
      · simp at hx; rcases hx with h | h | h | h <;> omega

theorem utf8_encode_lt_256 (s : PyStr) (hs : ∀ c ∈ s, c < 1114112) :
    ∀ x ∈ utf8_encode s, x < 256 := by
  match s with
  | [] => simp [utf8_encode]
  | c :: t =>
    intro x hx
    simp only [utf8_encode, List.mem_append] at hx
    rcases hx with h | h
    · exact utf8_encode_char_lt_256 c (hs c (by simp)) x h
    · exact utf8_encode_lt_256 t (fun d hd => hs d (by simp [hd])) x h

theorem utf8_decode_encode_char (c : Nat) (hc : c < 1114112) (rest : Bytes) :
    utf8_decode (utf8_encode_char c ++ rest) =
      (utf8_decode rest).map (fun s => c :: s) := by
  unfold utf8_encode_char
  by_cases h1 : c < 128
  · rw [if_pos h1]
    simp only [List.cons_append, List.nil_append]
    rw [utf8_decode_cons1 c rest h1]
  · rw [if_neg h1]
    by_cases h2 : c < 2048
    · rw [if_pos h2]
      simp only [List.cons_append, List.nil_append]
      rw [utf8_decode_cons2 _ _ rest (by omega) (by omega) (by omega) (by omega)]
      have he : (192 + c / 64 - 192) * 64 + (128 + c % 64 - 128) = c := by omega
      rw [he]
    · rw [if_neg h2]
      by_cases h3 : c < 65536
      · rw [if_pos h3]
        simp only [List.cons_append, List.nil_append]
        rw [utf8_decode_cons3 _ _ _ rest (by omega) (by omega) (by omega) (by omega)
          (by omega) (by omega)]
        have he : (224 + c / 4096 - 224) * 4096 + (128 + c / 64 % 64 - 128) * 64 +
            (128 + c % 64 - 128) = c := by omega
        rw [he]
      · rw [if_neg h3]
        simp only [List.cons_append, List.nil_append]
        rw [utf8_decode_cons4 _ _ _ _ rest (by omega) (by omega) (by omega) (by omega)
          (by omega) (by omega) (by omega) (by omega)]
        have he : (240 + c / 262144 - 240) * 262144 + (128 + c / 4096 % 64 - 128) * 4096 +
            (128 + c / 64 % 64 - 128) * 64 + (128 + c % 64 - 128) = c := by omega
        rw [he]

theorem utf8_decode_utf8_encode (s : PyStr) (hs : ∀ c ∈ s, c < 1114112) :
    utf8_decode (utf8_encode s) = some s := by
  match s with
  | [] => rfl
  | c :: t =>
    have ih := utf8_decode_utf8_encode t (fun d hd => hs d (by simp [hd]))
    simp only [utf8_encode]
    rw [utf8_decode_encode_char c (hs c (by simp)), ih]
    rfl

theorem utf8_encode_ascii (s : PyStr) (hs : ∀ c ∈ s, c < 128) :
    utf8_encode s = s := by
  match s with
  | [] => rfl
  | c :: t =>
    have hc : c < 128 := hs c (by simp)
    simp only [utf8_encode, utf8_encode_char, if_pos hc]
    rw [utf8_encode_ascii t (fun d hd => hs d (by simp [hd]))]
    rfl

theorem utf8_decode_ascii (s : Bytes) (hs : ∀ c ∈ s, c < 128) :
    utf8_decode s = some s := by
  match s with
  | [] => rfl
  | c :: t =>
    have hc : c < 128 := hs c (by simp)
    rw [utf8_decode_cons1 c t hc, utf8_decode_ascii t (fun d hd => hs d (by simp [hd]))]
    rfl

/- ==================================================================
   Toy hash engine.  Modelled from the spec: stands in for the external
   SHA-256 / SHA-512 primitives (hashlib, cryptography).  The claims only
   rely on determinism and on hex-digest shape, both of which hold here;
   collision behaviour is never assumed.
   ================================================================== -/

/-- Absorb a byte sequence into a 128-bit accumulator (FNV-style toy PRF). -/
def toy_absorb (seed : Nat) (l : Bytes) : Nat :=
  l.foldl (fun h b => (h * 1099511628211 + b + 1) % (2 ^ 128)) (seed % (2 ^ 128))

/-- Lowercase hex digit as ASCII code (matches Python hexdigest output). -/
def hex_char (d : Nat) : Nat := if d < 10 then 48 + d else 87 + d

/-- Hex digest text of the toy hash, width hex characters. -/
def hex_digest (width seed : Nat) (l : Bytes) : Bytes :=
  (List.range width).map (fun i => hex_char (toy_absorb seed l / 16 ^ (width - 1 - i) % 16))

/-- Modelled from the spec: hashlib.sha256(data).hexdigest() (toy instantiation). -/
def sha256_hexdigest (l : Bytes) : Bytes := hex_digest 64 2166136261 l

/-- Modelled from the spec: hashlib.sha512(data).hexdigest() (toy instantiation). -/
def sha512_hexdigest (l : Bytes) : Bytes := hex_digest 128 40389 l

theorem hex_digest_length (width seed : Nat) (l : Bytes) :
    (hex_digest width seed l).length = width := by
  simp [hex_digest]

theorem hex_digest_lt_128 (width seed : Nat) (l : Bytes) :
    ∀ x ∈ hex_digest width seed l, x < 128 := by
  intro x hx
  simp only [hex_digest, List.mem_map] at hx
  obtain ⟨i, _, hi⟩ := hx
  subst hi
  unfold hex_char
  split <;> omega

/-- Little-endian byte expansion of a natural number, w bytes. -/
def nat_bytes (w n : Nat) : Bytes := (List.range w).map (fun i => n / 256 ^ i % 256)

theorem nat_bytes_length (w n : Nat) : (nat_bytes w n).length = w := by
  simp [nat_bytes]

theorem nat_bytes_lt_256 (w n : Nat) : ∀ x ∈ nat_bytes w n, x < 256 := by
  intro x hx
  simp only [nat_bytes, List.mem_map] at hx
  obtain ⟨i, _, hi⟩ := hx
  omega

/- ==================================================================
   AEAD model.  Modelled from the spec: stands in for the cryptography
   library's AESGCM and ChaCha20Poly1305 (encrypt returns ciphertext
   with the 16-byte tag appended; decrypt recomputes and checks the tag,
   raising InvalidTag on mismatch, and never returns unauthenticated
   plaintext).  The keystream is a toy xor stream so that decryption is
   the exact inverse of encryption, as the library guarantees.
   ================================================================== -/

/-- Algorithm constant distinguishing the AESGCM instance. -/
def AES_ALG : Nat := 1

/-- Algorithm constant distinguishing the ChaCha20Poly1305 instance. -/
def CHACHA_ALG : Nat := 2

/-- Keystream byte i for the given key and nonce. -/
def ks (alg : Nat) (key nonce : Bytes) (i : Nat) : Nat :=
  toy_absorb (alg + 1315423911 * i) (key ++ 252 :: nonce) % 256

/-- Xor a byte sequence against the keystream starting at index i. -/
def xor_stream (alg : Nat) (key nonce : Bytes) : Nat → Bytes → Bytes
  | _, [] => []
  | i, b :: t => (b ^^^ ks alg key nonce i) :: xor_stream alg key nonce (i + 1) t

/-- The 16-byte authentication tag over a ciphertext. -/
def mac_bytes (alg : Nat) (key nonce ct : Bytes) : Bytes :=
  nat_bytes 16 (toy_absorb alg (key ++ 255 :: nonce ++ 254 :: ct))

/-- AEAD encrypt: ciphertext followed by the 16-byte tag. -/
def aead_encrypt_lib (alg : Nat) (key nonce pt : Bytes) : Bytes :=
  xor_stream alg key nonce 0 pt ++ mac_bytes alg key nonce (xor_stream alg key nonce 0 pt)

/-- AEAD decrypt of ciphertext-plus-tag; InvalidTag on tag mismatch. -/
def aead_decrypt_lib (alg : Nat) (key nonce data : Bytes) : Except PyErr Bytes :=
  let ct := data.take (data.length - 16)
  let tag := data.drop (data.length - 16)
  if mac_bytes alg key nonce ct = tag then .ok (xor_stream alg key nonce 0 ct)
  else .error .invalidTag

theorem mac_bytes_length (alg : Nat) (key nonce ct : Bytes) :
    (mac_bytes alg key nonce ct).length = 16 := by
  simp [mac_bytes, nat_bytes_length]

theorem mac_bytes_lt_256 (alg : Nat) (key nonce ct : Bytes) :
    ∀ x ∈ mac_bytes alg key nonce ct, x < 256 := by
  unfold mac_bytes
  exact nat_bytes_lt_256 _ _

theorem xor_stream_length (alg : Nat) (key nonce : Bytes) (i : Nat) (l : Bytes) :
    (xor_stream alg key nonce i l).length = l.length := by
  match l with
  | [] => rfl
  | b :: t => simp [xor_stream, xor_stream_length alg key nonce (i + 1) t]

theorem xor_stream_involutive (alg : Nat) (key nonce : Bytes) (i : Nat) (l : Bytes) :
    xor_stream alg key nonce i (xor_stream alg key nonce i l) = l := by
  match l with
  | [] => rfl
  | b :: t =>
    simp only [xor_stream, List.cons.injEq]
    exact ⟨Nat.xor_cancel_right _ _, xor_stream_involutive alg key nonce (i + 1) t⟩

theorem ks_lt_256 (alg : Nat) (key nonce : Bytes) (i : Nat) : ks alg key nonce i < 256 := by
  unfold ks
  omega

theorem xor_stream_lt_256 (alg : Nat) (key nonce : Bytes) (i : Nat) (l : Bytes)
    (hl : ∀ b ∈ l, b < 256) : ∀ x ∈ xor_stream alg key nonce i l, x < 256 := by
  match l with
  | [] => simp [xor_stream]
  | b :: t =>
    intro x hx
    simp only [xor_stream, List.mem_cons] at hx
    rcases hx with h | h
    · subst h
      exact Nat.xor_lt_two_pow (n := 8) (hl b (by simp)) (ks_lt_256 alg key nonce i)
    · exact xor_stream_lt_256 alg key nonce (i + 1) t (fun d hd => hl d (by simp [hd])) x h

theorem aead_split_take (alg : Nat) (key nonce ct : Bytes) :
    ((ct ++ mac_bytes alg key nonce ct).take
      ((ct ++ mac_bytes alg key nonce ct).length - 16)) = ct := by
  have h : (ct ++ mac_bytes alg key nonce ct).length - 16 = ct.length := by
    simp [List.length_append, mac_bytes_length]
  rw [h, List.take_left]

theorem aead_split_drop (alg : Nat) (key nonce ct : Bytes) :
    ((ct ++ mac_bytes alg key nonce ct).drop
      ((ct ++ mac_bytes alg key nonce ct).length - 16)) = mac_bytes alg key nonce ct := by
  have h : (ct ++ mac_bytes alg key nonce ct).length - 16 = ct.length := by
    simp [List.length_append, mac_bytes_length]
  rw [h, List.drop_left]

theorem aead_decrypt_encrypt_lib (alg : Nat) (key nonce pt : Bytes) :
    aead_decrypt_lib alg key nonce (aead_encrypt_lib alg key nonce pt) = .ok pt := by
  unfold aead_decrypt_lib aead_encrypt_lib
  rw [aead_split_take, aead_split_drop, if_pos rfl, xor_stream_involutive]

/- ==================================================================
   RSA model.  Modelled from the spec: stands in for the cryptography
   library's RSA-OAEP encryption and RSA-PSS signing.  A keypair is an
   abstract identity n; generate_rsa_keypair returns the same identity
   for the private and the public half.  OAEP decryption succeeds
   exactly when the private key matches the public key the message was
   encrypted under, otherwise it raises ValueError (the library's
   behaviour on a wrong private key); PSS verification succeeds exactly
   on a signature produced with the matching key over the same data.
   ================================================================== -/

/-- Eight-byte tag identifying an RSA key (injective below 2^64). -/
def key_id_bytes (n : Nat) : Bytes :=
  [n % 256, n / 256 % 256, n / 65536 % 256, n / 16777216 % 256,
   n / 4294967296 % 256, n / 1099511627776 % 256,
   n / 281474976710656 % 256, n / 72057594037927936 % 256]

theorem key_id_bytes_length (n : Nat) : (key_id_bytes n).length = 8 := rfl

theorem key_id_bytes_lt_256 (n : Nat) : ∀ x ∈ key_id_bytes n, x < 256 := by
  intro x hx
  simp only [key_id_bytes, List.mem_cons, List.not_mem_nil, or_false] at hx
  rcases hx with h | h | h | h | h | h | h | h <;> omega

theorem key_id_bytes_inj (n m : Nat) (hn : n < 2 ^ 64) (hm : m < 2 ^ 64)
    (h : key_id_bytes n = key_id_bytes m) : n = m := by
  simp only [key_id_bytes, List.cons.injEq, and_true] at h
  omega

/-- RSA-OAEP encryption under the public key (idealized sealed box). -/
def oaep_encrypt (public_key : Nat) (msg : Bytes) : Bytes :=
  key_id_bytes public_key ++ msg

/-- RSA-OAEP decryption with the private key; ValueError on key mismatch. -/
def oaep_decrypt (private_key : Nat) (ct : Bytes) : Except PyErr Bytes :=
  if ct.take 8 = key_id_bytes private_key then .ok (ct.drop 8)
  else .error (.valueError "Decryption failed")

theorem oaep_decrypt_encrypt (k : Nat) (msg : Bytes) :
    oaep_decrypt k (oaep_encrypt k msg) = .ok msg := by
  unfold oaep_decrypt oaep_encrypt
  rw [List.take_left' (key_id_bytes_length k), List.drop_left' (key_id_bytes_length k),
    if_pos rfl]

theorem oaep_decrypt_wrong_key (p q : Nat) (msg : Bytes)
    (hp : p < 2 ^ 64) (hq : q < 2 ^ 64) (hne : q ≠ p) :
    oaep_decrypt q (oaep_encrypt p msg) = .error (.valueError "Decryption failed") := by
  unfold oaep_decrypt oaep_encrypt
  rw [List.take_left' (key_id_bytes_length p)]
  rw [if_neg (fun hc => hne (key_id_bytes_inj q p hq hp hc.symm))]

/- ==================================================================
   crypto.py (backend/app/core/crypto.py)
   ================================================================== -/

/-- generate_aes_key: validates the key size and returns fresh random key
bytes; the entropy argument models os.urandom(key_size // 8) (theorems
constrain its length where it matters). -/
def generate_aes_key (key_size : Nat) (entropy : Bytes) : Except PyErr Bytes :=
  if key_size = 128 ∨ key_size = 192 ∨ key_size = 256 then .ok entropy
  else .error (.valueError "AES key size must be 128, 192, or 256 bits")

/-- generate_rsa_keypair: returns (private_key, public_key); both halves are
the same abstract key identity.  Rejects moduli below 2048 bits. -/
def generate_rsa_keypair (key_size : Nat) (key_id : Nat) : Except PyErr (Nat × Nat) :=
  if key_size < 2048 then .error (.valueError "RSA key size must be at least 2048 bits for security")
  else .ok (key_id, key_id)

/-- Result dictionary of aes_encrypt / chacha20_encrypt (the key field is
present only when the function generated the key itself). -/
structure AesEncryptResult where
  ciphertext : Bytes
  nonce : Bytes
  tag : Bytes
  algorithm : String
  key : Option Bytes
deriving DecidableEq, Repr

/-- Body of aes_encrypt once the key is resolved (the source resolves the
optional key argument first, then encrypts; the AESGCM constructor
validates the key length). -/
def aes_encrypt_with (key : Bytes) (include_key : Bool) (nonce : Bytes) (plaintext : PyStr) :
    Except PyErr AesEncryptResult :=
  if key.length = 16 ∨ key.length = 24 ∨ key.length = 32 then
    let ciphertext_and_tag := aead_encrypt_lib AES_ALG key nonce (utf8_encode plaintext)
    let ciphertext := ciphertext_and_tag.take (ciphertext_and_tag.length - 16)
    let tag := ciphertext_and_tag.drop (ciphertext_and_tag.length - 16)
    .ok { ciphertext := b64encode ciphertext,
          nonce := b64encode nonce,
          tag := b64encode tag,
          algorithm := "AES-256-GCM",
          key := if include_key then some (b64encode key) else none }
  else .error (.valueError "Invalid AES key size")

/-- aes_encrypt: AES-256-GCM encryption; fresh_key models the key generated
when no key is supplied, nonce_entropy models os.urandom(12). -/
def aes_encrypt (fresh_key nonce_entropy : Bytes) (plaintext : PyStr) (key? : Option Bytes) :
    Except PyErr AesEncryptResult :=
  match key? with
  | none =>
    match generate_aes_key 256 fresh_key with
    | .error e => .error e
    | .ok k => aes_encrypt_with k true nonce_entropy plaintext
  | some k => aes_encrypt_with k false nonce_entropy plaintext

/-- aes_decrypt: base64-decodes the pieces, reconstructs ciphertext plus tag,
AEAD-decrypts, and converts the library's InvalidTag into
ValueError("Authentication failed: data may have been tampered with"). -/
def aes_decrypt (ciphertext : Bytes) (key : Bytes) (nonce : Bytes) (tag : Bytes) :
    Except PyErr PyStr :=
  let ciphertext_bytes := b64decode ciphertext
  let nonce_bytes := b64decode nonce
  let tag_bytes := b64decode tag
  if key.length = 16 ∨ key.length = 24 ∨ key.length = 32 then
    match aead_decrypt_lib AES_ALG key nonce_bytes (ciphertext_bytes ++ tag_bytes) with
    | .ok plaintext_bytes =>
      match utf8_decode plaintext_bytes with
      | some s => .ok s
      | none => .error .unicodeDecodeError
    | .error _ => .error (.valueError "Authentication failed: data may have been tampered with")
  else .error (.valueError "Invalid AES key size")

/-- chacha20_encrypt analogue of aes_encrypt_with (ChaCha20Poly1305 accepts
only 32-byte keys). -/
def chacha20_encrypt_with (key : Bytes) (include_key : Bool) (nonce : Bytes) (plaintext : PyStr) :
    Except PyErr AesEncryptResult :=
  if key.length = 32 then
    let ciphertext_and_tag := aead_encrypt_lib CHACHA_ALG key nonce (utf8_encode plaintext)
    let ciphertext := ciphertext_and_tag.take (ciphertext_and_tag.length - 16)
    let tag := ciphertext_and_tag.drop (ciphertext_and_tag.length - 16)
    .ok { ciphertext := b64encode ciphertext,
          nonce := b64encode nonce,
          tag := b64encode tag,
          algorithm := "ChaCha20-Poly1305",
          key := if include_key then some (b64encode key) else none }
  else .error (.valueError "Invalid ChaCha20 key size")

/-- chacha20_encrypt: ChaCha20-Poly1305 encryption. -/
def chacha20_encrypt (fresh_key nonce_entropy : Bytes) (plaintext : PyStr) (key? : Option Bytes) :
    Except PyErr AesEncryptResult :=
  match key? with
  | none => chacha20_encrypt_with fresh_key true nonce_entropy plaintext
  | some k => chacha20_encrypt_with k false nonce_entropy plaintext

/-- chacha20_decrypt: mirror of aes_decrypt for ChaCha20-Poly1305. -/
def chacha20_decrypt (ciphertext : Bytes) (key : Bytes) (nonce : Bytes) (tag : Bytes) :
    Except PyErr PyStr :=
  let ciphertext_bytes := b64decode ciphertext
  let nonce_bytes := b64decode nonce
  let tag_bytes := b64decode tag
  if key.length = 32 then
    match aead_decrypt_lib CHACHA_ALG key nonce_bytes (ciphertext_bytes ++ tag_bytes) with
    | .ok plaintext_bytes =>
      match utf8_decode plaintext_bytes with
      | some s => .ok s
      | none => .error .unicodeDecodeError
    | .error _ => .error (.valueError "Authentication failed: data may have been tampered with")
  else .error (.valueError "Invalid ChaCha20 key size")

/-- rsa_encrypt: OAEP encryption of the utf-8 bytes, base64-encoded. -/
def rsa_encrypt (plaintext : PyStr) (public_key : Nat) : Bytes :=
  b64encode (oaep_encrypt public_key (utf8_encode plaintext))

/-- rsa_decrypt: base64-decode, OAEP-decrypt, utf-8 decode. -/
def rsa_decrypt (ciphertext : Bytes) (private_key : Nat) : Except PyErr PyStr :=
  match oaep_decrypt private_key (b64decode ciphertext) with
  | .error e => .error e
  | .ok m =>
    match utf8_decode m with
    | some s => .ok s
    | none => .error .unicodeDecodeError

/-- sha256_hash: hex digest of the utf-8 encoding of a string. -/
def sha256_hash (data : PyStr) : Bytes := sha256_hexdigest (utf8_encode data)

/-- sha512_hash: hex digest of the utf-8 encoding of a string. -/
def sha512_hash (data : PyStr) : Bytes := sha512_hexdigest (utf8_encode data)

/-- verify_hash: recomputes the digest with the named algorithm and compares;
raises ValueError on an unsupported algorithm name. -/
def verify_hash (data : PyStr) (hash_value : Bytes) (algorithm : String) : Except PyErr Bool :=
  if py_upper algorithm = "SHA-256" then .ok (sha256_hash data == hash_value)
  else if py_upper algorithm = "SHA-512" then .ok (sha512_hash data == hash_value)
  else .error (.valueError ("Unsupported hash algorithm: " ++ algorithm))

/-- RSA-PSS signature bytes over data with key k (idealized deterministic
model of the library primitive; see the RSA model note above). -/
def pss_signature (k : Nat) (data : Bytes) : Bytes :=
  key_id_bytes k ++ nat_bytes 16 (toy_absorb 77 data)

/-- sign_data: base64 text of the PSS signature over the utf-8 bytes. -/
def sign_data (data : PyStr) (private_key : Nat) : Bytes :=
  b64encode (pss_signature private_key (utf8_encode data))

/-- verify_signature: true exactly when the signature verifies under the
public key (the source returns False on InvalidSignature). -/
def verify_signature (data : PyStr) (signature : Bytes) (public_key : Nat) : Bool :=
  b64decode signature == pss_signature public_key (utf8_encode data)

/-- Result dictionary of hybrid_encrypt. -/
structure HybridEncryptResult where
  encrypted_data : Bytes
  encrypted_key : Bytes
  nonce : Bytes
  tag : Bytes
  algorithm : String
deriving DecidableEq, Repr

/-- hybrid_encrypt: AES-encrypt with a fresh key, then RSA-encrypt the
base64 text of that key under the recipient public key. -/
def hybrid_encrypt (fresh_key nonce_entropy : Bytes) (plaintext : PyStr) (public_key : Nat) :
    Except PyErr HybridEncryptResult :=
  match aes_encrypt fresh_key nonce_entropy plaintext none with
  | .error e => .error e
  | .ok aes_result =>
    match aes_result.key with
    | none => .error (.keyError "key")
    | some aes_key_b64 =>
      .ok { encrypted_data := aes_result.ciphertext,
            encrypted_key := rsa_encrypt aes_key_b64 public_key,
            nonce := aes_result.nonce,
            tag := aes_result.tag,
            algorithm := "Hybrid-AES-256-GCM-RSA-2048" }

/-- hybrid_decrypt: RSA-decrypt the wrapped key, then AES-decrypt the data. -/
def hybrid_decrypt (encrypted_data encrypted_key nonce tag : Bytes) (private_key : Nat) :
    Except PyErr PyStr :=
  match rsa_decrypt encrypted_key private_key with
  | .error e => .error e
  | .ok aes_key_b64 =>
    let aes_key := b64decode aes_key_b64
    aes_decrypt encrypted_data aes_key nonce tag

/- ==================================================================
   Crypto layer helper lemmas
   ================================================================== -/

theorem aes_encrypt_with_eq (key nonce : Bytes) (include_key : Bool) (pt : PyStr)
    (hk : key.length = 16 ∨ key.length = 24 ∨ key.length = 32) :
    aes_encrypt_with key include_key nonce pt =
      .ok { ciphertext := b64encode (xor_stream AES_ALG key nonce 0 (utf8_encode pt)),
            nonce := b64encode nonce,
            tag := b64encode (mac_bytes AES_ALG key nonce
              (xor_stream AES_ALG key nonce 0 (utf8_encode pt))),
            algorithm := "AES-256-GCM",
            key := if include_key then some (b64encode key) else none } := by
  unfold aes_encrypt_with
  rw [if_pos hk]
  simp only [aead_encrypt_lib, aead_split_take, aead_split_drop]

theorem aes_encrypt_none_eq (fk ne : Bytes) (pt : PyStr) (hk : fk.length = 32) :
    aes_encrypt fk ne pt none =
      .ok { ciphertext := b64encode (xor_stream AES_ALG fk ne 0 (utf8_encode pt)),
            nonce := b64encode ne,
            tag := b64encode (mac_bytes AES_ALG fk ne
              (xor_stream AES_ALG fk ne 0 (utf8_encode pt))),
            algorithm := "AES-256-GCM",
            key := some (b64encode fk) } := by
  rw [aes_encrypt]
  simp only [generate_aes_key, if_pos (show 256 = 128 ∨ 256 = 192 ∨ 256 = 256 by omega)]
  exact aes_encrypt_with_eq fk ne true pt (by omega)

theorem aes_decrypt_of_encrypt (key nonce : Bytes) (pt : PyStr)
    (hk : key.length = 16 ∨ key.length = 24 ∨ key.length = 32)
    (hkb : ∀ b ∈ nonce, b < 256) (hpt : ∀ c ∈ pt, c < 1114112) :
    aes_decrypt (b64encode (xor_stream AES_ALG key nonce 0 (utf8_encode pt))) key
      (b64encode nonce)
      (b64encode (mac_bytes AES_ALG key nonce (xor_stream AES_ALG key nonce 0 (utf8_encode pt))))
      = .ok pt := by
  unfold aes_decrypt
  rw [if_pos hk]
  rw [b64decode_b64encode _ (xor_stream_lt_256 _ _ _ _ _ (utf8_encode_lt_256 pt hpt)),
    b64decode_b64encode _ hkb,
    b64decode_b64encode _ (mac_bytes_lt_256 _ _ _ _)]
  rw [show (xor_stream AES_ALG key nonce 0 (utf8_encode pt) ++
      mac_bytes AES_ALG key nonce (xor_stream AES_ALG key nonce 0 (utf8_encode pt))) =
      aead_encrypt_lib AES_ALG key nonce (utf8_encode pt) from rfl]
  rw [aead_decrypt_encrypt_lib]
  simp only [utf8_decode_utf8_encode pt hpt]

theorem verify_sign (d : PyStr) (k : Nat) :
    verify_signature d (sign_data d k) k = true := by
  unfold verify_signature sign_data
  rw [b64decode_b64encode]
  · simp
  · intro x hx
    rcases List.mem_append.mp hx with h | h
    · exact key_id_bytes_lt_256 _ _ h
    · exact nat_bytes_lt_256 _ _ _ h

theorem hybrid_encrypt_eq (fk ne : Bytes) (pt : PyStr) (pub : Nat) (hk : fk.length = 32) :
    hybrid_encrypt fk ne pt pub =
      .ok { encrypted_data := b64encode (xor_stream AES_ALG fk ne 0 (utf8_encode pt)),
            encrypted_key := rsa_encrypt (b64encode fk) pub,
            nonce := b64encode ne,
            tag := b64encode (mac_bytes AES_ALG fk ne
              (xor_stream AES_ALG fk ne 0 (utf8_encode pt))),
            algorithm := "Hybrid-AES-256-GCM-RSA-2048" } := by
  unfold hybrid_encrypt
  rw [aes_encrypt_none_eq fk ne pt hk]

theorem rsa_decrypt_of_encrypt (s : PyStr) (k : Nat) (hs : ∀ c ∈ s, c < 128) :
    rsa_decrypt (rsa_encrypt s k) k = .ok s := by
  unfold rsa_decrypt rsa_encrypt
  rw [b64decode_b64encode]
  · rw [oaep_decrypt_encrypt]
    rw [utf8_encode_ascii s hs]
    simp only [utf8_decode_ascii s hs]
  · intro x hx
    rcases List.mem_append.mp hx with h | h
    · exact key_id_bytes_lt_256 _ _ h
    · have he := utf8_encode_ascii s hs
      rw [he] at h
      have := hs x h
      omega

theorem rsa_decrypt_wrong_key (s : PyStr) (p q : Nat) (hs : ∀ c ∈ s, c < 128)
    (hp : p < 2 ^ 64) (hq : q < 2 ^ 64) (hne : q ≠ p) :
    rsa_decrypt (rsa_encrypt s p) q = .error (.valueError "Decryption failed") := by
  unfold rsa_decrypt rsa_encrypt
  rw [b64decode_b64encode]
  · rw [oaep_decrypt_wrong_key p q _ hp hq hne]
  · intro x hx
    rcases List.mem_append.mp hx with h | h
    · exact key_id_bytes_lt_256 _ _ h
    · rw [utf8_encode_ascii s hs] at h
      have := hs x h
      omega

theorem hybrid_decrypt_of_encrypt (fk ne : Bytes) (pt : PyStr) (k : Nat)
    (hk : fk.length = 32) (hfb : ∀ b ∈ fk, b < 256) (hnb : ∀ b ∈ ne, b < 256)
    (hpt : ∀ c ∈ pt, c < 1114112) :
    hybrid_decrypt (b64encode (xor_stream AES_ALG fk ne 0 (utf8_encode pt)))
      (rsa_encrypt (b64encode fk) k) (b64encode ne)
      (b64encode (mac_bytes AES_ALG fk ne (xor_stream AES_ALG fk ne 0 (utf8_encode pt)))) k
      = .ok pt := by
  unfold hybrid_decrypt
  rw [rsa_decrypt_of_encrypt (b64encode fk) k (b64encode_lt_128 fk)]
  simp only [b64decode_b64encode fk hfb]
  exact aes_decrypt_of_encrypt fk ne pt (by omega) hnb hpt

theorem hybrid_decrypt_wrong_key (fk ne : Bytes) (pt : PyStr) (p q : Nat)
    (hp : p < 2 ^ 64) (hq : q < 2 ^ 64) (hne : q ≠ p) :
    hybrid_decrypt (b64encode (xor_stream AES_ALG fk ne 0 (utf8_encode pt)))
      (rsa_encrypt (b64encode fk) p) (b64encode ne)
      (b64encode (mac_bytes AES_ALG fk ne (xor_stream AES_ALG fk ne 0 (utf8_encode pt)))) q
      = .error (.valueError "Decryption failed") := by
  unfold hybrid_decrypt
  rw [rsa_decrypt_wrong_key (b64encode fk) p q (b64encode_lt_128 fk) hp hq hne]

/- ==================================================================
   integrity_service.py — MerkleTree.

   The MerkleTree class state (chunks, tree, root) is derived purely from
   (data, chunk_size) in the constructor, so methods are embedded as
   functions of (data, chunk_size).
   ================================================================== -/

/-- Recursion core of _split_into_chunks; the fuel argument (an upper bound
on the input length) makes the recursion structural. -/
def split_chunks_fuel : Nat → Bytes → Nat → List Bytes
  | _, _, 0 => []
  | _, [], _ + 1 => []
  | 0, _ :: _, _ + 1 => []
  | f + 1, b :: t, c + 1 =>
    (b :: t).take (c + 1) :: split_chunks_fuel f ((b :: t).drop (c + 1)) (c + 1)

/-- MerkleTree._split_into_chunks: data[i : i + chunk_size] slices.  A zero
chunk size makes Python's range raise; the claims assume chunk_size > 0 and
this embedding returns [] in that degenerate case. -/
def split_into_chunks (data : Bytes) (chunk_size : Nat) : List Bytes :=
  split_chunks_fuel data.length data chunk_size

/-- MerkleTree._hash_pair: SHA-256 over the utf-8 bytes of the hex-string
concatenation of the two child digests.  The same hashing step is inlined
in _build_tree, generate_proof and verify_proof in the source. -/
def hash_pair (left right : Bytes) : Bytes :=
  sha256_hexdigest (utf8_encode (left ++ right))

/-- One level-building pass of _build_tree (the inner for-loop over index
pairs): adjacent nodes are paired, and a trailing lone node is paired with
itself.  generate_proof repeats the identical loop to compute next_level. -/
def pair_level : List Bytes → List Bytes
  | [] => []
  | [x] => [hash_pair x x]
  | x :: y :: rest => hash_pair x y :: pair_level rest

theorem pair_level_length (l : List Bytes) : (pair_level l).length = (l.length + 1) / 2 := by
  match l with
  | [] => simp [pair_level]
  | [x] => simp [pair_level]
  | x :: y :: rest =>
    simp only [pair_level, List.length_cons, pair_level_length rest]
    omega

theorem pair_level_ne_nil (l : List Bytes) (h : l ≠ []) : pair_level l ≠ [] := by
  match l with
  | [] => exact absurd rfl h
  | [x] => simp [pair_level]
  | x :: y :: rest => simp [pair_level]

/-- The while-loop of _build_tree: collect every level bottom-up, starting
from the given level, until a level has a single node. -/
def build_levels (current : List Bytes) : List (List Bytes) :=
  if 1 < current.length then current :: build_levels (pair_level current)
  else [current]
termination_by current.length
decreasing_by
  rw [pair_level_length]
  omega

/-- The flattening loop of _build_tree: extend all levels, root level first. -/
def concat_levels : List (List Bytes) → List Bytes
  | [] => []
  | l :: ls => l ++ concat_levels ls

/-- MerkleTree._build_tree: flattened list of all node hashes, root first;
empty for empty data. -/
def build_tree (chunks : List Bytes) : List Bytes :=
  match chunks with
  | [] => []
  | _ => concat_levels (build_levels (chunks.map sha256_hexdigest)).reverse

/-- MerkleTree.root: tree[0] when the tree is non-empty, "" otherwise. -/
def merkle_root (data : Bytes) (chunk_size : Nat) : Bytes :=
  match build_tree (split_into_chunks data chunk_size) with
  | [] => []
  | x :: _ => x

/-- MerkleProof (integrity_service.MerkleProof dataclass); positions are the
source's "left" / "right" strings. -/
structure MerkleProof where
  chunk_index : Nat
  chunk_hash : Bytes
  sibling_hashes : List (Bytes × String)
  root_hash : Bytes
deriving DecidableEq, Repr

/-- The bottom-up walk of generate_proof: record the sibling hash and its
side at each level, then move to the parent level (recomputed with the
same pairing loop) and halve the index. -/
def sibling_path (level : List Bytes) (idx : Nat) : List (Bytes × String) :=
  if 1 < level.length then
    (if idx % 2 = 0 then
       (if idx + 1 < level.length then (level.getD (idx + 1) [], "right")
        else (level.getD idx [], "right"))
     else (level.getD (idx - 1) [], "left")) :: sibling_path (pair_level level) (idx / 2)
  else []
termination_by level.length
decreasing_by
  rw [pair_level_length]
  omega

/-- MerkleTree.generate_proof; ValueError on an out-of-range chunk index. -/
def generate_proof (data : Bytes) (chunk_size : Nat) (chunk_index : Nat) :
    Except PyErr MerkleProof :=
  let chunks := split_into_chunks data chunk_size
  if chunk_index ≥ chunks.length then
    .error (.valueError "Invalid chunk index")
  else
    .ok { chunk_index := chunk_index,
          chunk_hash := sha256_hexdigest (chunks.getD chunk_index []),
          sibling_hashes := sibling_path (chunks.map sha256_hexdigest) chunk_index,
          root_hash := merkle_root data chunk_size }

/-- The fold of verify_proof over the recorded sibling path (each step is
the same hex-concatenation hash as hash_pair). -/
def fold_path (current : Bytes) : List (Bytes × String) → Bytes
  | [] => current
  | (sibling, position) :: rest =>
    if position = "left" then fold_path (hash_pair sibling current) rest
    else fold_path (hash_pair current sibling) rest

/-- MerkleTree.verify_proof: recompute the leaf hash, fold it up the sibling
path, and compare with the recorded root.  Total — never raises. -/
def verify_proof (proof : MerkleProof) (chunk_data : Bytes) : Bool :=
  let chunk_hash := sha256_hexdigest chunk_data
  if chunk_hash ≠ proof.chunk_hash then false
  else fold_path chunk_hash proof.sibling_hashes == proof.root_hash

/-- IntegrityService.verify_integrity: rebuild the tree over the content and
compare roots. -/
def verify_integrity (content : Bytes) (expected_root : Bytes) (chunk_size : Nat) : Bool :=
  merkle_root content chunk_size == expected_root

/- ==================================================================
   Merkle proof machinery
   ================================================================== -/

/-- The root value that the while-loop of _build_tree converges to, as a
recursion on levels. -/
def root_of_level (level : List Bytes) : Bytes :=
  if 1 < level.length then root_of_level (pair_level level) else level.headD []
termination_by level.length
decreasing_by
  rw [pair_level_length]
  omega

theorem getD_zero_eq_headD (l : List Bytes) : l.getD 0 [] = l.headD [] := by
  cases l <;> simp

theorem pair_level_getD (l : List Bytes) (j : Nat) (h : 2 * j < l.length) :
    (pair_level l).getD j [] =
      if 2 * j + 1 < l.length then hash_pair (l.getD (2 * j) []) (l.getD (2 * j + 1) [])
      else hash_pair (l.getD (2 * j) []) (l.getD (2 * j) []) := by
  match l, j with
  | [], j =>
    simp only [List.length_nil] at h
    omega
  | [x], 0 =>
    rw [if_neg (by simp)]
    simp [pair_level]
  | [x], j + 1 =>
    simp only [List.length_singleton] at h
    omega
  | x :: y :: rest, 0 =>
    rw [if_pos (by simp only [List.length_cons]; omega)]
    simp [pair_level]
  | x :: y :: rest, j + 1 =>
    have h2 : 2 * j < rest.length := by
      simp only [List.length_cons] at h
      omega
    have ih := pair_level_getD rest j h2
    simp only [pair_level, List.getD_cons_succ]
    rw [ih]
    have e1 : 2 * (j + 1) = 2 * j + 1 + 1 := by omega
    rw [e1]
    simp only [List.getD_cons_succ, List.length_cons]
    by_cases hc : 2 * j + 1 < rest.length
    · rw [if_pos hc, if_pos (by omega)]
    · rw [if_neg hc, if_neg (by omega)]

theorem fold_sibling_path (level : List Bytes) (idx : Nat) (h : idx < level.length) :
    fold_path (level.getD idx []) (sibling_path level idx) = root_of_level level := by
  rw [sibling_path, root_of_level]
  by_cases hl : 1 < level.length
  · rw [if_pos hl, if_pos hl]
    have hpl : idx / 2 < (pair_level level).length := by
      rw [pair_level_length]
      omega
    have ih := fold_sibling_path (pair_level level) (idx / 2) hpl
    by_cases he : idx % 2 = 0
    · by_cases hlt : idx + 1 < level.length
      · rw [if_pos he, if_pos hlt]
        simp only [fold_path]
        rw [if_neg (by decide)]
        have hp := pair_level_getD level (idx / 2) (by omega)
        rw [show 2 * (idx / 2) = idx by omega] at hp
        rw [if_pos hlt] at hp
        rw [← hp]
        exact ih
      · rw [if_pos he, if_neg hlt]
        simp only [fold_path]
        rw [if_neg (by decide)]
        have hp := pair_level_getD level (idx / 2) (by omega)
        rw [show 2 * (idx / 2) = idx by omega] at hp
        rw [if_neg hlt] at hp
        rw [← hp]
        exact ih
    · rw [if_neg he]
      simp only [fold_path]
      rw [if_true]
      have hp := pair_level_getD level (idx / 2) (by omega)
      rw [show 2 * (idx / 2) = idx - 1 by omega] at hp
      rw [show idx - 1 + 1 = idx by omega] at hp
      rw [if_pos (by omega)] at hp
      rw [← hp]
      exact ih
  · rw [if_neg hl, if_neg hl]
    have : idx = 0 := by omega
    subst this
    simp only [fold_path]
    exact getD_zero_eq_headD level
termination_by level.length
decreasing_by
  rw [pair_level_length]
  omega

theorem headD_append (a b : List Bytes) (h : a ≠ []) : (a ++ b).headD [] = a.headD [] := by
  cases a
  · exact absurd rfl h
  · rfl

theorem concat_levels_append (a b : List (List Bytes)) :
    concat_levels (a ++ b) = concat_levels a ++ concat_levels b := by
  match a with
  | [] => simp [concat_levels]
  | l :: ls =>
    simp only [List.cons_append, concat_levels, List.append_eq,
      concat_levels_append ls b, List.append_assoc]

theorem concat_rev_build_ne_nil (level : List Bytes) (h : level ≠ []) :
    concat_levels (build_levels level).reverse ≠ [] := by
  rw [build_levels]
  by_cases hl : 1 < level.length
  · rw [if_pos hl]
    simp only [List.reverse_cons, concat_levels_append, concat_levels, List.append_nil]
    intro hc
    exact h (List.append_eq_nil.mp hc).2
  · rw [if_neg hl]
    simp only [List.reverse_singleton, concat_levels, List.append_nil]
    exact h

theorem concat_rev_build_headD (level : List Bytes) (h : level ≠ []) :
    (concat_levels (build_levels level).reverse).headD [] = root_of_level level := by
  rw [build_levels, root_of_level]
  by_cases hl : 1 < level.length
  · rw [if_pos hl, if_pos hl]
    rw [List.reverse_cons, concat_levels_append]
    rw [headD_append _ _ (concat_rev_build_ne_nil (pair_level level) (pair_level_ne_nil level h))]
    exact concat_rev_build_headD (pair_level level) (pair_level_ne_nil level h)
  · rw [if_neg hl, if_neg hl]
    simp [concat_levels]
termination_by level.length
decreasing_by
  rw [pair_level_length]
  omega

theorem head_match_eq_headD (l : List Bytes) :
    (match l with
     | [] => ([] : Bytes)
     | x :: _ => x) = l.headD [] := by
  cases l <;> rfl

theorem split_into_chunks_ne_nil (data : Bytes) (csize : Nat) (hd : data ≠ []) (hc : 0 < csize) :
    split_into_chunks data csize ≠ [] := by
  match data, csize with
  | _, 0 => omega
  | [], _ + 1 => exact absurd rfl hd
  | b :: t, c + 1 => simp [split_into_chunks, split_chunks_fuel]

theorem merkle_root_eq_root_of_level (data : Bytes) (csize : Nat)
    (h : split_into_chunks data csize ≠ []) :
    merkle_root data csize =
      root_of_level ((split_into_chunks data csize).map sha256_hexdigest) := by
  unfold merkle_root build_tree
  cases hc : split_into_chunks data csize with
  | nil => exact absurd hc h
  | cons c cs =>
    rw [head_match_eq_headD]
    exact concat_rev_build_headD _ (by simp)

theorem getD_map_sha (l : List Bytes) (i : Nat) (h : i < l.length) :
    (l.map sha256_hexdigest).getD i [] = sha256_hexdigest (l.getD i []) := by
  match l, i with
  | [], _ => simp at h
  | a :: t, 0 => simp
  | a :: t, i + 1 =>
    simp only [List.map_cons, List.getD_cons_succ]
    exact getD_map_sha t i (by simp only [List.length_cons] at h; omega)

theorem generate_proof_ok (data : Bytes) (csize i : Nat)
    (hi : i < (split_into_chunks data csize).length) :
    generate_proof data csize i =
      .ok { chunk_index := i,
            chunk_hash := sha256_hexdigest ((split_into_chunks data csize).getD i []),
            sibling_hashes := sibling_path ((split_into_chunks data csize).map sha256_hexdigest) i,
            root_hash := merkle_root data csize } := by
  simp only [generate_proof]
  rw [if_neg (by omega)]

theorem verify_proof_of_generate (data : Bytes) (csize i : Nat)
    (hd : data ≠ []) (hc : 0 < csize) (hi : i < (split_into_chunks data csize).length) :
    verify_proof
      { chunk_index := i,
        chunk_hash := sha256_hexdigest ((split_into_chunks data csize).getD i []),
        sibling_hashes := sibling_path ((split_into_chunks data csize).map sha256_hexdigest) i,
        root_hash := merkle_root data csize }
      ((split_into_chunks data csize).getD i []) = true := by
  unfold verify_proof
  rw [if_neg (by simp)]
  have hfold := fold_sibling_path ((split_into_chunks data csize).map sha256_hexdigest) i
    (by simp only [List.length_map]; omega)
  rw [getD_map_sha _ _ hi] at hfold
  rw [hfold, merkle_root_eq_root_of_level data csize (split_into_chunks_ne_nil data csize hd hc)]
  simp

theorem verify_proof_hash_mismatch (p : MerkleProof) (wrong : Bytes)
    (h : sha256_hexdigest wrong ≠ p.chunk_hash) : verify_proof p wrong = false := by
  unfold verify_proof
  rw [if_pos h]

/-- Modelled from the spec: the pairing rule of the Merkle construction —
adjacent digests combine as SHA256 of the hex-string concatenation, and when
a level has an odd node count the last node is paired with itself. -/
def spec_pair_up : List Bytes → List Bytes
  | [] => []
  | [x] => [sha256_hexdigest (utf8_encode (x ++ x))]
  | x :: y :: rest => sha256_hexdigest (utf8_encode (x ++ y)) :: spec_pair_up rest

theorem spec_pair_up_eq_pair_level (l : List Bytes) : spec_pair_up l = pair_level l := by
  match l with
  | [] => rfl
  | [x] => rfl
  | x :: y :: rest =>
    simp [spec_pair_up, pair_level, hash_pair, spec_pair_up_eq_pair_level rest]

/-- Modelled from the spec: fold a level of digests upward with the pairing
rule until a single root hash remains. -/
def spec_root_of : List Bytes → Bytes
  | [] => []
  | [x] => x
  | x :: y :: rest => spec_root_of (spec_pair_up (x :: y :: rest))
termination_by l => l.length
decreasing_by
  rw [spec_pair_up_eq_pair_level, pair_level_length]
  simp only [List.length_cons]
  omega

/-- Modelled from the spec: the Merkle root as the spec states it — leaf
hash = SHA256 of the chunk bytes, internal node hash by the pairing rule,
folded until one hash remains. -/
def merkle_root_spec (data : Bytes) (chunk_size : Nat) : Bytes :=
  spec_root_of ((split_into_chunks data chunk_size).map (fun c => sha256_hexdigest c))

theorem spec_root_of_eq_root_of_level (l : List Bytes) (h : l ≠ []) :
    spec_root_of l = root_of_level l := by
  match l with
  | [] => exact absurd rfl h
  | [x] =>
    rw [root_of_level]
    simp [spec_root_of]
  | x :: y :: rest =>
    rw [spec_root_of, root_of_level, if_pos (by simp only [List.length_cons]; omega)]
    rw [spec_pair_up_eq_pair_level]
    exact spec_root_of_eq_root_of_level (pair_level (x :: y :: rest))
      (pair_level_ne_nil _ (by simp))
termination_by l.length
decreasing_by
  rw [pair_level_length]
  simp only [List.length_cons]
  omega

/- ==================================================================
   policy_engine.py and models/encryption_policy.py,
   models/data_classification.py
   ================================================================== -/

/-- SensitivityLevel enum (models/data_classification.py). -/
inductive SensitivityLevel where
  | public
  | internal
  | confidential
  | highly_sensitive
deriving DecidableEq, Repr

/-- The .value string of the enum member. -/
def SensitivityLevel.value : SensitivityLevel → String
  | .public => "public"
  | .internal => "internal"
  | .confidential => "confidential"
  | .highly_sensitive => "highly_sensitive"

/-- MFARequirement enum (models/encryption_policy.py). -/
inductive MFARequirement where
  | NONE
  | RECOMMENDED
  | REQUIRED
  | CONDITIONAL
deriving DecidableEq, Repr

/-- EncryptionPolicy row (models/encryption_policy.py). -/
structure EncryptionPolicy where
  sensitivity_level : String
  encryption_algorithm : String
  key_size : Nat
  asymmetric_algorithm : Option String := none
  asymmetric_key_size : Option Nat := none
  hash_algorithm : String
  signature_required : Bool := false
  mfa_required : MFARequirement := .NONE
  description : String := ""
deriving DecidableEq, Repr

/-- EncryptionPolicy.requires_asymmetric property. -/
def EncryptionPolicy.requires_asymmetric (p : EncryptionPolicy) : Bool :=
  p.asymmetric_algorithm.isSome && p.asymmetric_key_size.isSome

/-- PolicyEngineService.get_policy: first row whose tier equals the
lower-cased lookup key; the policy store is modelled as the list of rows. -/
def get_policy (policies : List EncryptionPolicy) (sensitivity_level : String) :
    Option EncryptionPolicy :=
  policies.find? (fun p => p.sensitivity_level == py_lower sensitivity_level)

/-- The "public" default policy dictionary of create_default_policies. -/
def policy_public : EncryptionPolicy :=
  { sensitivity_level := "public", encryption_algorithm := "AES-128-GCM", key_size := 128,
    hash_algorithm := "SHA-256", signature_required := false, mfa_required := .NONE,
    description := "Minimal protection for public data" }

/-- The "internal" default policy dictionary. -/
def policy_internal : EncryptionPolicy :=
  { sensitivity_level := "internal", encryption_algorithm := "AES-256-GCM", key_size := 256,
    hash_algorithm := "SHA-256", signature_required := false, mfa_required := .NONE,
    description := "Standard protection for internal data" }

/-- The "confidential" default policy dictionary. -/
def policy_confidential : EncryptionPolicy :=
  { sensitivity_level := "confidential", encryption_algorithm := "AES-256-GCM", key_size := 256,
    hash_algorithm := "SHA-512", signature_required := true, mfa_required := .CONDITIONAL,
    description := "Strong protection for confidential data" }

/-- The "highly_sensitive" default policy dictionary (the only hybrid one). -/
def policy_highly_sensitive : EncryptionPolicy :=
  { sensitivity_level := "highly_sensitive", encryption_algorithm := "AES-256-GCM",
    key_size := 256, asymmetric_algorithm := some "RSA-2048", asymmetric_key_size := some 2048,
    hash_algorithm := "SHA-512", signature_required := true, mfa_required := .REQUIRED,
    description := "Maximum protection for highly sensitive data (hybrid encryption)" }

/-- The default policy dictionaries of create_default_policies. -/
def default_policy_list : List EncryptionPolicy :=
  [policy_public, policy_internal, policy_confidential, policy_highly_sensitive]

/-- PolicyEngineService.create_default_policies: insert each default policy
unless a row for its tier already exists. -/
def create_default_policies (db : List EncryptionPolicy) : List EncryptionPolicy :=
  default_policy_list.foldl
    (fun db p =>
      if (db.find? (fun q => q.sensitivity_level == p.sensitivity_level)).isSome then db
      else db ++ [p]) db

/-- The policy store right after seeding an empty database. -/
def seeded_policies : List EncryptionPolicy := create_default_policies []

/-- PolicyEngineService.requires_signature (defaults to False when no policy). -/
def requires_signature (policies : List EncryptionPolicy) (sensitivity_level : String) : Bool :=
  match get_policy policies sensitivity_level with
  | some p => p.signature_required
  | none => false

/-- PolicyEngineService.requires_hybrid_encryption (defaults to False). -/
def requires_hybrid_encryption (policies : List EncryptionPolicy)
    (sensitivity_level : String) : Bool :=
  match get_policy policies sensitivity_level with
  | some p => p.requires_asymmetric
  | none => false

/-- PolicyEngineService.get_hash_algorithm (defaults to "SHA-256" when the
tier has no policy row). -/
def get_hash_algorithm (policies : List EncryptionPolicy) (sensitivity_level : String) : String :=
  match get_policy policies sensitivity_level with
  | some p => p.hash_algorithm
  | none => "SHA-256"

/-- PolicyEngineService.get_mfa_requirement (defaults to NONE when the tier
has no policy row). -/
def get_mfa_requirement (policies : List EncryptionPolicy)
    (sensitivity_level : String) : MFARequirement :=
  match get_policy policies sensitivity_level with
  | some p => p.mfa_required
  | none => .NONE

/- ==================================================================
   encryption_service.py
   ================================================================== -/

/-- EncryptionService state: the policy store and the service RSA keypair
(generate_rsa_keypair returns matching halves, so both fields carry the
same key identity by construction). -/
structure EncryptionService where
  policies : List EncryptionPolicy
  private_key : Nat
  public_key : Nat
deriving Repr

/-- EncryptionService.__init__ with an abstract fresh keypair identity. -/
def mk_encryption_service (policies : List EncryptionPolicy) (key_id : Nat) :
    EncryptionService :=
  { policies := policies, private_key := key_id, public_key := key_id }

/-- DataItem row (models/data_classification.py) as populated by
encrypt_and_store and consumed by decrypt_data. -/
structure DataItem where
  user_id : Nat
  original_content : PyStr
  sensitivity_level : SensitivityLevel
  confidence_score : Option Nat
  encrypted_content : Bytes
  encryption_algorithm : String
  encryption_key_id : Bytes
  nonce : Bytes
  tag : Bytes
  hash_value : Bytes
  hash_algorithm : String
  is_signed : Bool
  signature : Option Bytes
deriving DecidableEq, Repr

/-- EncryptionService.encrypt_and_store.  The confidence score is opaque
metadata (a float in the source, stored but never interpreted by the core). -/
def encrypt_and_store (svc : EncryptionService) (fresh_key nonce_entropy : Bytes)
    (content : PyStr) (sensitivity_level : SensitivityLevel) (user_id : Nat)
    (confidence_score : Option Nat) : Except PyErr DataItem :=
  match get_policy svc.policies sensitivity_level.value with
  | none =>
    .error (.valueError ("No policy found for sensitivity level: " ++ sensitivity_level.value))
  | some policy =>
    let hash_algorithm := policy.hash_algorithm
    let hash_value :=
      if hash_algorithm = "SHA-512" then sha512_hash content else sha256_hash content
    let signature : Option Bytes :=
      if policy.signature_required then some (sign_data content svc.private_key) else none
    let is_signed := policy.signature_required
    if policy.requires_asymmetric then
      match hybrid_encrypt fresh_key nonce_entropy content svc.public_key with
      | .error e => .error e
      | .ok er =>
        .ok { user_id := user_id, original_content := content,
              sensitivity_level := sensitivity_level, confidence_score := confidence_score,
              encrypted_content := er.encrypted_data, encryption_algorithm := er.algorithm,
              encryption_key_id := er.encrypted_key, nonce := er.nonce, tag := er.tag,
              hash_value := hash_value, hash_algorithm := hash_algorithm,
              is_signed := is_signed, signature := signature }
    else
      match aes_encrypt fresh_key nonce_entropy content none with
      | .error e => .error e
      | .ok r =>
        match r.key with
        | none => .error (.valueError "AES encryption did not return a key")
        | some key_b64 =>
          .ok { user_id := user_id, original_content := content,
                sensitivity_level := sensitivity_level, confidence_score := confidence_score,
                encrypted_content := r.ciphertext, encryption_algorithm := r.algorithm,
                encryption_key_id := key_b64, nonce := r.nonce, tag := r.tag,
                hash_value := hash_value, hash_algorithm := hash_algorithm,
                is_signed := is_signed, signature := signature }

/-- Return dictionary of decrypt_data. -/
structure DecryptDataResult where
  decrypted_text : PyStr
  hash_verified : Bool
  signature_verified : Option Bool
deriving DecidableEq, Repr

/-- EncryptionService.decrypt_data: dispatch on the stored algorithm string
("Hybrid" substring selects the hybrid path), verify hash and, when the
item is marked signed, the signature; verification results are returned as
flags alongside the plaintext. -/
def decrypt_data (svc : EncryptionService) (item : DataItem) : Except PyErr DecryptDataResult :=
  if item.encrypted_content = [] then .error (.valueError "Data item is not encrypted")
  else
    match (if str_contains item.encryption_algorithm "Hybrid" then
             hybrid_decrypt item.encrypted_content item.encryption_key_id item.nonce item.tag
               svc.private_key
           else
             aes_decrypt item.encrypted_content (b64decode item.encryption_key_id) item.nonce
               item.tag) with
    | .error e => .error e
    | .ok plaintext =>
      match verify_hash plaintext item.hash_value item.hash_algorithm with
      | .error e => .error e
      | .ok hash_verified =>
        match (if item.is_signed then
                 match item.signature with
                 | some sig => .ok (some (verify_signature plaintext sig svc.public_key))
                 | none => .error (.typeError
                     "argument should be a bytes-like object or ASCII string, not NoneType")
               else .ok none : Except PyErr (Option Bool)) with
        | .error e => .error e
        | .ok signature_verified =>
          .ok { decrypted_text := plaintext, hash_verified := hash_verified,
                signature_verified := signature_verified }

/- ==================================================================
   share_service.py and models/share_link.py
   ================================================================== -/

/-- The file_metadata JSON dictionary of a share link. -/
structure FileMeta where
  filename : Option String := none
  content_type : Option String := none
  file_size : Nat := 0
deriving DecidableEq, Repr

/-- ShareLink row (models/share_link.py); timestamps are abstract Nat
instants. -/
structure ShareLink where
  share_token : String
  encrypted_content : Bytes
  encryption_algorithm : String
  nonce : Bytes
  tag : Bytes
  encryption_key : Bytes
  hash_value : Bytes
  hash_algorithm : String
  password_hash : Option Bytes
  sensitivity_level : String
  expiration_time : Option Nat
  max_downloads : Option Nat
  download_count : Nat
  last_accessed : Option Nat
  file_metadata : FileMeta
  merkle_root : Option Bytes
  chunk_size : Option Nat
  is_active : Bool
deriving DecidableEq, Repr

/-- ShareLink.is_expired (a missing expiration time never expires). -/
def is_expired (now : Nat) (link : ShareLink) : Bool :=
  match link.expiration_time with
  | none => false
  | some t => now > t

/-- ShareLink.is_download_limit_reached; note Python truthiness: a limit of
0 is falsy and therefore means no limit. -/
def is_download_limit_reached (link : ShareLink) : Bool :=
  match link.max_downloads with
  | none => false
  | some 0 => false
  | some (m + 1) => link.download_count ≥ m + 1

/-- ShareLink.can_access. -/
def can_access (now : Nat) (link : ShareLink) : Bool :=
  link.is_active && !is_expired now link && !is_download_limit_reached link

/-- Modelled from the spec: hashlib.pbkdf2_hmac('sha256', password, salt,
600000); the 600000 PRF iterations are abstracted into a single application
of the toy absorb function with a 32-byte output. -/
def pbkdf2_hmac_sha256 (password salt : Bytes) : Bytes :=
  nat_bytes 32 (toy_absorb 600000 (password ++ 251 :: salt))

/-- ShareService._hash_password: base64 of salt concatenated with the
derived key; salt_entropy models secrets.token_bytes(32). -/
def hash_password (salt_entropy : Bytes) (password : PyStr) : Bytes :=
  b64encode (salt_entropy ++ pbkdf2_hmac_sha256 (utf8_encode password) salt_entropy)

/-- ShareService._verify_password: split salt and key, re-derive, and
compare with secrets.compare_digest (plain equality of byte strings; the
source's except-clause is unreachable in this model because the lenient
base64 decoder never throws). -/
def verify_password (password : PyStr) (password_hash : Bytes) : Bool :=
  let decoded := b64decode password_hash
  let salt := decoded.take 32
  let stored_key := decoded.drop 32
  pbkdf2_hmac_sha256 (utf8_encode password) salt == stored_key

/-- Python bytes.decode('latin-1'): bijective bytes to code points. -/
def latin1_decode (b : Bytes) : PyStr := b

/-- Python str.encode('latin-1'); UnicodeEncodeError above code point 255. -/
def latin1_encode (s : PyStr) : Except PyErr Bytes :=
  if ∀ c ∈ s, c < 256 then .ok s else .error .unicodeEncodeError

/-- ShareService.verify_merkle_integrity: False without a stored root
(Python falsiness also covers the empty string), else rebuild and compare,
with the stored chunk size defaulting to 4096 when falsy. -/
def verify_merkle_integrity (link : ShareLink) (content : Bytes) : Bool :=
  match link.merkle_root with
  | none => false
  | some r =>
    if r = [] then false
    else
      verify_integrity content r
        (match link.chunk_size with
         | none => 4096
         | some 0 => 4096
         | some (c + 1) => c + 1)

/-- ShareService.increment_download_count: bump the counter and stamp
last_accessed. -/
def increment_download_count (now : Nat) (link : ShareLink) : ShareLink :=
  { link with download_count := link.download_count + 1, last_accessed := some now }

/-- The access-state gate at the top of decrypt_share: when can_access is
false, raise the first matching state reason (expired, then limit, then
inactive). -/
def access_gate (now : Nat) (link : ShareLink) : Option PyErr :=
  if !can_access now link then
    if is_expired now link then some (.valueError "Share link has expired")
    else if is_download_limit_reached link then some (.valueError "Download limit reached")
    else if !link.is_active then some (.valueError "Share link is no longer active")
    else none
  else none

/-- The password gate of decrypt_share: evaluated only when a password hash
is set (Python truthiness: empty-string hashes do not gate); a missing or
empty supplied password raises "Password required", a non-matching one
"Incorrect password". -/
def password_gate (link : ShareLink) (password : Option PyStr) : Option PyErr :=
  match link.password_hash with
  | none => none
  | some h =>
    if h = [] then none
    else
      match password with
      | none => some (.valueError "Password required")
      | some p =>
        if p = [] then some (.valueError "Password required")
        else if !verify_password p h then some (.valueError "Incorrect password")
        else none

/-- Return dictionary of decrypt_share. -/
structure DecryptShareResult where
  content : Bytes
  filename : String
  content_type : String
  hash_verified : Bool
  merkle_verified : Bool
  sensitivity_level : String
  remaining_downloads : Option Int
deriving DecidableEq, Repr

/-- ShareService.decrypt_share, in state-passing form: the ShareLink object
the call mutates is threaded through, and every raise carries the link
state at the moment of the raise (the source mutates the link only inside
increment_download_count, which runs after decryption and both integrity
checks).  The remaining_downloads field reads the counter after the
increment, as the source does. -/
def decrypt_share (now : Nat) (link : ShareLink) (password : Option PyStr) :
    Except (PyErr × ShareLink) (DecryptShareResult × ShareLink) :=
  match access_gate now link with
  | some e => .error (e, link)
  | none =>
    match password_gate link password with
    | some e => .error (e, link)
    | none =>
      let key := b64decode link.encryption_key
      match aes_decrypt link.encrypted_content key link.nonce link.tag with
      | .error e => .error (.valueError ("Decryption failed: " ++ err_str e), link)
      | .ok plaintext_str =>
        match latin1_encode plaintext_str with
        | .error e => .error (.valueError ("Decryption failed: " ++ err_str e), link)
        | .ok plaintext =>
          match verify_hash plaintext_str link.hash_value link.hash_algorithm with
          | .error e => .error (e, link)
          | .ok hash_verified =>
            let merkle_verified := verify_merkle_integrity link plaintext
            let link2 := increment_download_count now link
            .ok ({ content := plaintext,
                   filename := link.file_metadata.filename.getD "download",
                   content_type := link.file_metadata.content_type.getD
                     "application/octet-stream",
                   hash_verified := hash_verified,
                   merkle_verified := merkle_verified,
                   sensitivity_level := link.sensitivity_level,
                   remaining_downloads :=
                     match link.max_downloads with
                     | none => none
                     | some 0 => none
                     | some (m + 1) =>
                       some (((m : Int) + 1) - (link2.download_count : Int)) },
                 link2)

/- ==================================================================
   Auxiliary lemmas for the service-level theorems
   ================================================================== -/

theorem utf8_encode_char_ne_nil (c : Nat) : utf8_encode_char c ≠ [] := by
  unfold utf8_encode_char
  split
  · simp
  · split
    · simp
    · split <;> simp

theorem utf8_encode_ne_nil (s : PyStr) (h : s ≠ []) : utf8_encode s ≠ [] := by
  match s with
  | [] => exact absurd rfl h
  | c :: t =>
    simp only [utf8_encode]
    intro hc
    exact utf8_encode_char_ne_nil c (List.append_eq_nil.mp hc).1

theorem xor_stream_ne_nil (alg : Nat) (key nonce : Bytes) (i : Nat) (l : Bytes) (h : l ≠ []) :
    xor_stream alg key nonce i l ≠ [] := by
  match l with
  | [] => exact absurd rfl h
  | b :: t => simp [xor_stream]

theorem b64encode_ne_nil (l : Bytes) (h : l ≠ []) : b64encode l ≠ [] := by
  match l with
  | [] => exact absurd rfl h
  | [a] => simp [b64encode]
  | [a, b] => simp [b64encode]
  | a :: b :: c :: rest => simp [b64encode]

theorem verify_hash_sha256_self (content : PyStr) :
    verify_hash content (sha256_hash content) "SHA-256" = .ok true := by
  unfold verify_hash
  rw [if_pos (show py_upper "SHA-256" = "SHA-256" from rfl)]
  simp

theorem verify_hash_sha512_self (content : PyStr) :
    verify_hash content (sha512_hash content) "SHA-512" = .ok true := by
  unfold verify_hash
  rw [if_neg (show ¬ py_upper "SHA-512" = "SHA-256" by decide)]
  rw [if_pos (show py_upper "SHA-512" = "SHA-512" from rfl)]
  simp

theorem access_gate_of_can_access (now : Nat) (link : ShareLink)
    (h : can_access now link = true) : access_gate now link = none := by
  unfold access_gate
  rw [h]
  rfl

theorem access_gate_none_can_access (now : Nat) (link : ShareLink)
    (h : access_gate now link = none) : can_access now link = true := by
  unfold access_gate at h
  by_cases hc : can_access now link = true
  · exact hc
  · rw [if_pos (by simp [hc])] at h
    cases he : is_expired now link with
    | true => rw [if_pos (by simp [he])] at h; exact absurd h (by simp)
    | false =>
      rw [if_neg (by simp [he])] at h
      cases hl : is_download_limit_reached link with
      | true => rw [if_pos (by simp [hl])] at h; exact absurd h (by simp)
      | false =>
        rw [if_neg (by simp [hl])] at h
        cases ha : link.is_active with
        | false => rw [if_pos (by simp [ha])] at h; exact absurd h (by simp)
        | true =>
          exact absurd (by simp [can_access, ha, he, hl]) hc

/- ==================================================================
   Claim theorems
   ================================================================== -/

/-- C2: Merkle proof completeness and soundness.  For every non-empty byte
buffer, chunk size > 0 and chunk index i in range, generate_proof succeeds
and verify_proof accepts the proof on chunk i, while any bytes whose
SHA-256 hash differs from the proof's chunk hash are rejected; both
functions are total on these inputs, so no exception is raised. -/
theorem merkle_proof_complete_sound (data : Bytes) (csize i : Nat)
    (hd : data ≠ []) (hc : 0 < csize) (hi : i < (split_into_chunks data csize).length) :
    ∃ p, generate_proof data csize i = .ok p ∧
      verify_proof p ((split_into_chunks data csize).getD i []) = true ∧
      ∀ wrong, sha256_hexdigest wrong ≠ p.chunk_hash → verify_proof p wrong = false := by
  refine ⟨_, generate_proof_ok data csize i hi, verify_proof_of_generate data csize i hd hc hi, ?_⟩
  intro wrong hw
  exact verify_proof_hash_mismatch _ wrong hw

/-- C3: Merkle construction rule.  For every non-empty buffer and positive
chunk size, the root computed by the source's _build_tree equals the root
computed directly by the spec's construction rule (leaf hash of the chunk
bytes, internal hash of the hex-string concatenation, duplicate-self on odd
levels); being a Lean function of (data, chunk_size), the root is a pure
deterministic function of exactly those inputs. -/
theorem merkle_root_matches_spec_rule (data : Bytes) (csize : Nat)
    (hd : data ≠ []) (hc : 0 < csize) :
    merkle_root data csize = merkle_root_spec data csize := by
  rw [merkle_root_eq_root_of_level data csize (split_into_chunks_ne_nil data csize hd hc)]
  rw [merkle_root_spec]
  rw [spec_root_of_eq_root_of_level _
    (by simp [split_into_chunks_ne_nil data csize hd hc])]

theorem aead_decrypt_lib_split (alg : Nat) (key nb cb tb : Bytes) (ht : tb.length = 16) :
    aead_decrypt_lib alg key nb (cb ++ tb) =
      if mac_bytes alg key nb cb = tb then .ok (xor_stream alg key nb 0 cb)
      else .error .invalidTag := by
  unfold aead_decrypt_lib
  rw [List.take_left' (by simp only [List.length_append, ht]; omega),
    List.drop_left' (by simp only [List.length_append, ht]; omega)]

/-- C4 (amended): AEAD failure semantics.  With a valid key length and a
16-byte stored tag, aes_decrypt and chacha20_decrypt raise
ValueError("Authentication failed: data may have been tampered with") —
the generic ValueError kind carrying that fixed message, the source having
no distinct AuthenticationError class — whenever the recomputed tag
differs from the stored one, and they return plaintext only when the tag
verifies, never silently on a mismatch. -/
theorem aead_tag_mismatch_value_error (ciphertext key nonce tag : Bytes) :
    ((key.length = 16 ∨ key.length = 24 ∨ key.length = 32) →
      (b64decode tag).length = 16 →
      (mac_bytes AES_ALG key (b64decode nonce) (b64decode ciphertext) ≠ b64decode tag →
        aes_decrypt ciphertext key nonce tag =
          .error (.valueError "Authentication failed: data may have been tampered with")) ∧
      (∀ pt, aes_decrypt ciphertext key nonce tag = .ok pt →
        mac_bytes AES_ALG key (b64decode nonce) (b64decode ciphertext) = b64decode tag)) ∧
    (key.length = 32 →
      (b64decode tag).length = 16 →
      (mac_bytes CHACHA_ALG key (b64decode nonce) (b64decode ciphertext) ≠ b64decode tag →
        chacha20_decrypt ciphertext key nonce tag =
          .error (.valueError "Authentication failed: data may have been tampered with")) ∧
      (∀ pt, chacha20_decrypt ciphertext key nonce tag = .ok pt →
        mac_bytes CHACHA_ALG key (b64decode nonce) (b64decode ciphertext) = b64decode tag)) := by
  constructor
  · intro hk ht
    unfold aes_decrypt
    rw [if_pos hk, aead_decrypt_lib_split AES_ALG key _ _ _ ht]
    constructor
    · intro hne
      rw [if_neg hne]
    · intro pt hok
      by_cases he : mac_bytes AES_ALG key (b64decode nonce) (b64decode ciphertext) = b64decode tag
      · exact he
      · rw [if_neg he] at hok
        exact absurd hok (by simp)
  · intro hk ht
    unfold chacha20_decrypt
    rw [if_pos hk, aead_decrypt_lib_split CHACHA_ALG key _ _ _ ht]
    constructor
    · intro hne
      rw [if_neg hne]
    · intro pt hok
      by_cases he : mac_bytes CHACHA_ALG key (b64decode nonce) (b64decode ciphertext) = b64decode tag
      · exact he
      · rw [if_neg he] at hok
        exact absurd hok (by simp)

/-- C5 (amended): Hybrid encryption round trip and wrong-key behaviour.
For every plaintext, hybrid_decrypt of hybrid_encrypt under the matching
private key recovers the plaintext; a non-matching private key makes the
RSA key-unwrap stage fail, which surfaces as ValueError("Decryption
failed") — the same generic ValueError kind as the tag-mismatch error, the
source having no distinct KeyUnwrapError class, so the two stages are
distinguishable only by message. -/
theorem hybrid_round_trip_and_wrong_key (content : PyStr) (fk ne : Bytes) (pub priv : Nat)
    (hfk : fk.length = 32) (hfb : ∀ b ∈ fk, b < 256) (hnb : ∀ b ∈ ne, b < 256)
    (hct : ∀ c ∈ content, c < 1114112) :
    ∃ r, hybrid_encrypt fk ne content pub = .ok r ∧
      (priv = pub →
        hybrid_decrypt r.encrypted_data r.encrypted_key r.nonce r.tag priv = .ok content) ∧
      (priv ≠ pub → pub < 2 ^ 64 → priv < 2 ^ 64 →
        hybrid_decrypt r.encrypted_data r.encrypted_key r.nonce r.tag priv =
          .error (.valueError "Decryption failed")) := by
  refine ⟨_, hybrid_encrypt_eq fk ne content pub hfk, ?_, ?_⟩
  · intro he
    subst he
    exact hybrid_decrypt_of_encrypt fk ne content priv hfk hfb hnb hct
  · intro hne hp hq
    exact hybrid_decrypt_wrong_key fk ne content pub priv hp hq hne

/-- C6 (amended): Policy lookup failure.  On a tier with no policy row,
encrypt_and_store raises ValueError("No policy found for sensitivity
level: ..."), but get_hash_algorithm silently substitutes the default
"SHA-256" and get_mfa_requirement silently substitutes NONE instead of
surfacing a no-policy condition. -/
theorem policy_lookup_failure_behavior (db : List EncryptionPolicy) (tier : SensitivityLevel)
    (key_id user_id : Nat) (conf : Option Nat) (fk ne : Bytes) (content : PyStr)
    (h : get_policy db tier.value = none) :
    encrypt_and_store (mk_encryption_service db key_id) fk ne content tier user_id conf =
      .error (.valueError ("No policy found for sensitivity level: " ++ tier.value)) ∧
    get_hash_algorithm db tier.value = "SHA-256" ∧
    get_mfa_requirement db tier.value = .NONE := by
  refine ⟨?_, ?_, ?_⟩
  · simp only [encrypt_and_store, mk_encryption_service, h]
  · simp only [get_hash_algorithm, h]
  · simp only [get_mfa_requirement, h]

/-- C1 (amended): Pipeline round trip under the seeded policies for every
NON-EMPTY plaintext: decrypt_data applied to the item produced by
encrypt_and_store returns the original plaintext with hash_verified true,
and signature_verified is some true exactly for the signing tiers
(confidential and highly_sensitive, the latter on the hybrid RSA path) and
none for public and internal.  The empty plaintext is excluded: its
ciphertext is empty and decrypt_data rejects it (see the counterexample). -/
theorem pipeline_round_trip_seeded (content : PyStr) (tier : SensitivityLevel)
    (key_id user_id : Nat) (conf : Option Nat) (fk ne : Bytes)
    (hcne : content ≠ [])
    (hfk : fk.length = 32) (hfb : ∀ b ∈ fk, b < 256) (hnb : ∀ b ∈ ne, b < 256)
    (hct : ∀ c ∈ content, c < 1114112) :
    ∃ item, encrypt_and_store (mk_encryption_service seeded_policies key_id) fk ne content tier
        user_id conf = .ok item ∧
      decrypt_data (mk_encryption_service seeded_policies key_id) item =
        .ok { decrypted_text := content,
              hash_verified := true,
              signature_verified :=
                match tier with
                | .confidential => some true
                | .highly_sensitive => some true
                | _ => none } := by
  have hct_ne : b64encode (xor_stream AES_ALG fk ne 0 (utf8_encode content)) ≠ [] :=
    b64encode_ne_nil _ (xor_stream_ne_nil _ _ _ _ _ (utf8_encode_ne_nil content hcne))
  cases tier with
  | public =>
    have hp : get_policy seeded_policies "public" = some policy_public := by decide
    refine ⟨{ user_id := user_id, original_content := content, sensitivity_level := .public,
              confidence_score := conf,
              encrypted_content := b64encode (xor_stream AES_ALG fk ne 0 (utf8_encode content)),
              encryption_algorithm := "AES-256-GCM",
              encryption_key_id := b64encode fk,
              nonce := b64encode ne,
              tag := b64encode (mac_bytes AES_ALG fk ne
                (xor_stream AES_ALG fk ne 0 (utf8_encode content))),
              hash_value := sha256_hash content,
              hash_algorithm := "SHA-256",
              is_signed := false, signature := none }, ?_, ?_⟩
    · simp only [encrypt_and_store, mk_encryption_service, SensitivityLevel.value, hp]
      simp only [policy_public, EncryptionPolicy.requires_asymmetric, Option.isSome_none,
        Bool.and_self, Bool.false_eq_true, if_false]
      rw [aes_encrypt_none_eq fk ne content hfk]
      simp
    · simp only [decrypt_data]
      rw [if_neg hct_ne]
      rw [show str_contains "AES-256-GCM" "Hybrid" = false from by decide]
      simp only [Bool.false_eq_true, if_false]
      rw [b64decode_b64encode fk hfb]
      rw [aes_decrypt_of_encrypt fk ne content (Or.inr (Or.inr hfk)) hnb hct]
      simp [verify_hash_sha256_self content]
  | internal =>
    have hp : get_policy seeded_policies "internal" = some policy_internal := by decide
    refine ⟨{ user_id := user_id, original_content := content, sensitivity_level := .internal,
              confidence_score := conf,
              encrypted_content := b64encode (xor_stream AES_ALG fk ne 0 (utf8_encode content)),
              encryption_algorithm := "AES-256-GCM",
              encryption_key_id := b64encode fk,
              nonce := b64encode ne,
              tag := b64encode (mac_bytes AES_ALG fk ne
                (xor_stream AES_ALG fk ne 0 (utf8_encode content))),
              hash_value := sha256_hash content,
              hash_algorithm := "SHA-256",
              is_signed := false, signature := none }, ?_, ?_⟩
    · simp only [encrypt_and_store, mk_encryption_service, SensitivityLevel.value, hp]
      simp only [policy_internal, EncryptionPolicy.requires_asymmetric, Option.isSome_none,
        Bool.and_self, Bool.false_eq_true, if_false]
      rw [aes_encrypt_none_eq fk ne content hfk]
      simp
    · simp only [decrypt_data]
      rw [if_neg hct_ne]
      rw [show str_contains "AES-256-GCM" "Hybrid" = false from by decide]
      simp only [Bool.false_eq_true, if_false]
      rw [b64decode_b64encode fk hfb]
      rw [aes_decrypt_of_encrypt fk ne content (Or.inr (Or.inr hfk)) hnb hct]
      simp [verify_hash_sha256_self content]
  | confidential =>
    have hp : get_policy seeded_policies "confidential" = some policy_confidential := by decide
    refine ⟨{ user_id := user_id, original_content := content,
              sensitivity_level := .confidential,
              confidence_score := conf,
              encrypted_content := b64encode (xor_stream AES_ALG fk ne 0 (utf8_encode content)),
              encryption_algorithm := "AES-256-GCM",
              encryption_key_id := b64encode fk,
              nonce := b64encode ne,
              tag := b64encode (mac_bytes AES_ALG fk ne
                (xor_stream AES_ALG fk ne 0 (utf8_encode content))),
              hash_value := sha512_hash content,
              hash_algorithm := "SHA-512",
              is_signed := true, signature := some (sign_data content key_id) }, ?_, ?_⟩
    · simp only [encrypt_and_store, mk_encryption_service, SensitivityLevel.value, hp]
      simp only [policy_confidential, EncryptionPolicy.requires_asymmetric, Option.isSome_none,
        Bool.and_self, Bool.false_eq_true, if_false]
      rw [aes_encrypt_none_eq fk ne content hfk]
      simp
    · simp only [decrypt_data]
      rw [if_neg hct_ne]
      rw [show str_contains "AES-256-GCM" "Hybrid" = false from by decide]
      simp only [Bool.false_eq_true, if_false]
      rw [b64decode_b64encode fk hfb]
      rw [aes_decrypt_of_encrypt fk ne content (Or.inr (Or.inr hfk)) hnb hct]
      simp [verify_hash_sha512_self content, verify_sign content key_id, mk_encryption_service]
  | highly_sensitive =>
    have hp : get_policy seeded_policies "highly_sensitive" = some policy_highly_sensitive := by
      decide
    refine ⟨{ user_id := user_id, original_content := content,
              sensitivity_level := .highly_sensitive,
              confidence_score := conf,
              encrypted_content := b64encode (xor_stream AES_ALG fk ne 0 (utf8_encode content)),
              encryption_algorithm := "Hybrid-AES-256-GCM-RSA-2048",
              encryption_key_id := rsa_encrypt (b64encode fk) key_id,
              nonce := b64encode ne,
              tag := b64encode (mac_bytes AES_ALG fk ne
                (xor_stream AES_ALG fk ne 0 (utf8_encode content))),
              hash_value := sha512_hash content,
              hash_algorithm := "SHA-512",
              is_signed := true, signature := some (sign_data content key_id) }, ?_, ?_⟩
    · simp only [encrypt_and_store, mk_encryption_service, SensitivityLevel.value, hp]
      simp only [policy_highly_sensitive, EncryptionPolicy.requires_asymmetric,
        Option.isSome_some, Bool.and_self, if_true]
      rw [hybrid_encrypt_eq fk ne content key_id hfk]
    · simp only [decrypt_data, mk_encryption_service]
      rw [if_neg hct_ne]
      rw [show str_contains "Hybrid-AES-256-GCM-RSA-2048" "Hybrid" = true from by decide]
      simp only [if_true]
      rw [hybrid_decrypt_of_encrypt fk ne content key_id hfk hfb hnb hct]
      simp [verify_hash_sha512_self content, verify_sign content key_id]

theorem latin1_encode_ok (s : PyStr) (h : ∀ c ∈ s, c < 256) : latin1_encode s = .ok s := by
  unfold latin1_encode
  rw [if_pos h]

/-- C7 (amended): Fail-open on verification.  Whenever the AEAD/hybrid stage
of decrypt_data succeeds — and the stored record is well formed: its hash
algorithm is one verify_hash supports and, when marked signed, it carries a
signature (otherwise the source raises before returning, see the
counterexample) — the plaintext is returned together with the
hash_verified / signature_verified flags, whatever their values; likewise
decrypt_share returns the plaintext with hash_verified and merkle_verified
for any stored hash value and Merkle root, so a verification mismatch
never raises and never withholds the plaintext. -/
theorem decrypt_returns_plaintext_on_verification_failure :
    (∀ (svc : EncryptionService) (item : DataItem) (pt : PyStr) (hv : Bool) (sig : Bytes),
      item.encrypted_content ≠ [] →
      (if str_contains item.encryption_algorithm "Hybrid" then
         hybrid_decrypt item.encrypted_content item.encryption_key_id item.nonce item.tag
           svc.private_key
       else
         aes_decrypt item.encrypted_content (b64decode item.encryption_key_id) item.nonce
           item.tag) = .ok pt →
      verify_hash pt item.hash_value item.hash_algorithm = .ok hv →
      (item.is_signed = true → item.signature = some sig) →
      decrypt_data svc item =
        .ok { decrypted_text := pt, hash_verified := hv,
              signature_verified :=
                if item.is_signed then some (verify_signature pt sig svc.public_key)
                else none }) ∧
    (∀ (now : Nat) (link : ShareLink) (password : Option PyStr) (pt : PyStr) (hv : Bool),
      access_gate now link = none →
      password_gate link password = none →
      aes_decrypt link.encrypted_content (b64decode link.encryption_key) link.nonce link.tag
        = .ok pt →
      (∀ c ∈ pt, c < 256) →
      verify_hash pt link.hash_value link.hash_algorithm = .ok hv →
      decrypt_share now link password =
        .ok ({ content := pt,
               filename := link.file_metadata.filename.getD "download",
               content_type := link.file_metadata.content_type.getD "application/octet-stream",
               hash_verified := hv,
               merkle_verified := verify_merkle_integrity link pt,
               sensitivity_level := link.sensitivity_level,
               remaining_downloads :=
                 match link.max_downloads with
                 | none => none
                 | some 0 => none
                 | some (m + 1) =>
                   some (((m : Int) + 1) -
                     ((increment_download_count now link).download_count : Int)) },
             increment_download_count now link)) := by
  constructor
  · intro svc item pt hv sig hnn hstage hverify hsig
    simp only [decrypt_data]
    rw [if_neg hnn, hstage]
    simp only [hverify]
    cases hs : item.is_signed with
    | false => simp [hs]
    | true => simp [hs, hsig hs]
  · intro now link password pt hv hag hpg hstage hbound hverify
    simp only [decrypt_share, hag, hpg, hstage, latin1_encode_ok pt hbound, hverify]

/-- C8 (amended): Download-limit exactness.  A link with max_downloads = 1
permits exactly one successful decrypt: any success starts from
download_count = 0 and leaves it at 1, and once download_count ≥ 1 every
further sequential attempt on a non-expired link raises
ValueError("Download limit reached") — the generic ValueError kind and the
source's message, there being no AccessDeniedError class — regardless of
the supplied password. -/
theorem download_limit_exactness :
    (∀ (now : Nat) (link : ShareLink) (password : Option PyStr) (r : DecryptShareResult)
        (link2 : ShareLink),
      link.max_downloads = some 1 →
      decrypt_share now link password = .ok (r, link2) →
      link.download_count = 0 ∧ link2.download_count = 1 ∧ link2.max_downloads = some 1) ∧
    (∀ (now : Nat) (link : ShareLink) (password : Option PyStr),
      link.max_downloads = some 1 → 1 ≤ link.download_count →
      is_expired now link = false →
      decrypt_share now link password = .error (.valueError "Download limit reached", link)) := by
  constructor
  · intro now link password r link2 hmax hok
    simp only [decrypt_share] at hok
    split at hok
    · simp at hok
    · rename_i hag
      split at hok
      · simp at hok
      · split at hok
        · simp at hok
        · split at hok
          · simp at hok
          · split at hok
            · simp at hok
            · simp only [Except.ok.injEq, Prod.mk.injEq] at hok
              obtain ⟨hr, hl⟩ := hok
              have hca := access_gate_none_can_access now link hag
              have hnl : is_download_limit_reached link = false := by
                cases h1 : is_download_limit_reached link
                · rfl
                · unfold can_access at hca
                  rw [h1] at hca
                  simp at hca
              have hc0 : link.download_count = 0 := by
                unfold is_download_limit_reached at hnl
                rw [hmax] at hnl
                simp at hnl
                omega
              refine ⟨hc0, ?_, ?_⟩
              · rw [← hl]
                simp [increment_download_count, hc0]
              · rw [← hl]
                simp [increment_download_count, hmax]
  · intro now link password hmax hcnt hexp
    have hlim : is_download_limit_reached link = true := by
      unfold is_download_limit_reached
      rw [hmax]
      simp
      omega
    have hag : access_gate now link = some (.valueError "Download limit reached") := by
      unfold access_gate
      rw [show can_access now link = false from by simp [can_access, hlim]]
      simp [hexp, hlim]
    simp only [decrypt_share, hag]

/-- C10: Atomicity of the download gate.  Whenever decrypt_share raises —
for any reason (inactive, expired, limit reached, missing or wrong
password, or a decryption/verification exception) — the share link state
is unchanged: download_count and last_accessed are exactly as before,
because the counter is incremented only after decryption and the integrity
checks have completed. -/
theorem decrypt_share_error_preserves_state (now : Nat) (link : ShareLink)
    (password : Option PyStr) (e : PyErr) (link2 : ShareLink)
    (h : decrypt_share now link password = .error (e, link2)) : link2 = link := by
  simp only [decrypt_share] at h
  split at h
  · simp only [Except.error.injEq, Prod.mk.injEq] at h
    exact h.2.symm
  · split at h
    · simp only [Except.error.injEq, Prod.mk.injEq] at h
      exact h.2.symm
    · split at h
      · simp only [Except.error.injEq, Prod.mk.injEq] at h
        exact h.2.symm
      · split at h
        · simp only [Except.error.injEq, Prod.mk.injEq] at h
          exact h.2.symm
        · split at h
          · simp only [Except.error.injEq, Prod.mk.injEq] at h
            exact h.2.symm
          · simp at h

/-- C9 (amended): Password gate.  On a link whose password_hash is set, the
password check runs before any decryption is attempted — the rejection
below holds for arbitrary stored ciphertext fields — and a wrong password
on an otherwise accessible link raises ValueError("Incorrect password")
while a missing password raises the distinct ValueError("Password
required"); both differ from the state-based reasons ("Share link has
expired" / "Download limit reached") by message, the source having no
AccessDeniedError class.  With the correct password the decrypt succeeds
and download_count increments from 0 to 1. -/
theorem password_gate_behavior :
    (∀ (now : Nat) (link : ShareLink) (p ph : PyStr),
      link.password_hash = some ph → ph ≠ [] →
      can_access now link = true →
      p ≠ [] → verify_password p ph = false →
      decrypt_share now link (some p) = .error (.valueError "Incorrect password", link)) ∧
    (∀ (now : Nat) (link : ShareLink) (ph : PyStr),
      link.password_hash = some ph → ph ≠ [] → can_access now link = true →
      decrypt_share now link none = .error (.valueError "Password required", link)) ∧
    (∀ (now : Nat) (link : ShareLink) (p ph pt : PyStr) (hv : Bool),
      link.password_hash = some ph → ph ≠ [] → can_access now link = true →
      p ≠ [] → verify_password p ph = true →
      link.download_count = 0 →
      aes_decrypt link.encrypted_content (b64decode link.encryption_key) link.nonce link.tag
        = .ok pt →
      (∀ c ∈ pt, c < 256) →
      verify_hash pt link.hash_value link.hash_algorithm = .ok hv →
      ∃ r, decrypt_share now link (some p) = .ok (r, increment_download_count now link) ∧
        (increment_download_count now link).download_count = 1) := by
  refine ⟨?_, ?_, ?_⟩
  · intro now link p ph hph hhne hca hpne hwrong
    have hpg : password_gate link (some p) = some (.valueError "Incorrect password") := by
      simp [password_gate, hph, hhne, hpne, hwrong]
    simp only [decrypt_share, access_gate_of_can_access now link hca, hpg]
  · intro now link ph hph hhne hca
    have hpg : password_gate link none = some (.valueError "Password required") := by
      simp [password_gate, hph, hhne]
    simp only [decrypt_share, access_gate_of_can_access now link hca, hpg]
  · intro now link p ph pt hv hph hhne hca hpne hgood hc0 hstage hbound hverify
    have hpg : password_gate link (some p) = none := by
      simp [password_gate, hph, hhne, hpne, hgood]
    refine ⟨{ content := pt,
              filename := link.file_metadata.filename.getD "download",
              content_type := link.file_metadata.content_type.getD "application/octet-stream",
              hash_verified := hv,
              merkle_verified := verify_merkle_integrity link pt,
              sensitivity_level := link.sensitivity_level,
              remaining_downloads :=
                match link.max_downloads with
                | none => none
                | some 0 => none
                | some (m + 1) =>
                  some (((m : Int) + 1) -
                    ((increment_download_count now link).download_count : Int)) }, ?_, ?_⟩
    · simp only [decrypt_share, access_gate_of_can_access now link hca, hpg, hstage,
        latin1_encode_ok pt hbound, hverify]
    · simp [increment_download_count, hc0]

/- ==================================================================
   Concrete demonstration inputs for witnesses and counterexamples
   ================================================================== -/

/-- Code points of a Lean string literal, as a Python str value. -/
def demo_str (s : String) : PyStr := s.data.map Char.toNat

/-- A concrete 32-byte key (stands for one os.urandom(32) draw). -/
def demo_key : Bytes := (List.range 32).map (fun i => (i * 7 + 3) % 256)

/-- A concrete 12-byte nonce (stands for one os.urandom(12) draw). -/
def demo_nonce : Bytes := (List.range 12).map (fun i => (i * 11 + 5) % 256)

/-- A concrete 32-byte password salt (stands for secrets.token_bytes(32)). -/
def demo_salt : Bytes := List.replicate 32 7

/-- The AEAD ciphertext bytes of the plaintext "hi" under the demo key. -/
def demo_ct : Bytes := xor_stream AES_ALG demo_key demo_nonce 0 (utf8_encode (demo_str "hi"))

/-- True exactly when the result is a raised AuthenticationError (the error
kind the design documentation names for tag failures). -/
def raises_authentication_error (r : Except PyErr PyStr) : Bool :=
  match r with
  | .error (.authenticationError _) => true
  | _ => false

/-- True exactly when the result is a raised KeyUnwrapError. -/
def raises_key_unwrap_error (r : Except PyErr PyStr) : Bool :=
  match r with
  | .error (.keyUnwrapError _) => true
  | _ => false

/-- True exactly when decrypt_share raised an AccessDeniedError. -/
def share_raises_access_denied
    (r : Except (PyErr × ShareLink) (DecryptShareResult × ShareLink)) : Bool :=
  match r with
  | .error (.accessDeniedError _, _) => true
  | _ => false

/-- The DataItem encrypt_and_store produces for the empty plaintext under
the public tier with the demo entropy: its ciphertext text is empty. -/
def demo_empty_item : DataItem :=
  { user_id := 1, original_content := [], sensitivity_level := .public, confidence_score := none,
    encrypted_content := [], encryption_algorithm := "AES-256-GCM",
    encryption_key_id := b64encode demo_key, nonce := b64encode demo_nonce,
    tag := b64encode (mac_bytes AES_ALG demo_key demo_nonce []),
    hash_value := sha256_hash [], hash_algorithm := "SHA-256",
    is_signed := false, signature := none }

/-- A well-formed decryptable DataItem whose stored hash algorithm is the
unsupported "MD5". -/
def demo_item_md5 : DataItem :=
  { user_id := 1, original_content := demo_str "hi", sensitivity_level := .public,
    confidence_score := none, encrypted_content := b64encode demo_ct,
    encryption_algorithm := "AES-256-GCM", encryption_key_id := b64encode demo_key,
    nonce := b64encode demo_nonce,
    tag := b64encode (mac_bytes AES_ALG demo_key demo_nonce demo_ct),
    hash_value := sha256_hash (demo_str "hi"), hash_algorithm := "MD5",
    is_signed := false, signature := none }

/-- A decryptable DataItem whose stored hash value is wrong (hash
verification computes false). -/
def demo_item_bad_hash : DataItem :=
  { user_id := 1, original_content := demo_str "hi", sensitivity_level := .public,
    confidence_score := none, encrypted_content := b64encode demo_ct,
    encryption_algorithm := "AES-256-GCM", encryption_key_id := b64encode demo_key,
    nonce := b64encode demo_nonce,
    tag := b64encode (mac_bytes AES_ALG demo_key demo_nonce demo_ct),
    hash_value := [], hash_algorithm := "SHA-256",
    is_signed := false, signature := none }

/-- The hybrid_encrypt result for plaintext "hi" under public key 1 with the
demo entropy. -/
def demo_hybrid : HybridEncryptResult :=
  { encrypted_data := b64encode demo_ct,
    encrypted_key := rsa_encrypt (b64encode demo_key) 1,
    nonce := b64encode demo_nonce,
    tag := b64encode (mac_bytes AES_ALG demo_key demo_nonce demo_ct),
    algorithm := "Hybrid-AES-256-GCM-RSA-2048" }

/-- An active single-download share link holding the encrypted "hi". -/
def demo_link : ShareLink :=
  { share_token := "tok", encrypted_content := b64encode demo_ct,
    encryption_algorithm := "AES-256-GCM", nonce := b64encode demo_nonce,
    tag := b64encode (mac_bytes AES_ALG demo_key demo_nonce demo_ct),
    encryption_key := b64encode demo_key,
    hash_value := sha256_hash (demo_str "hi"), hash_algorithm := "SHA-256",
    password_hash := none, sensitivity_level := "internal",
    expiration_time := none, max_downloads := some 1, download_count := 0,
    last_accessed := none, file_metadata := {}, merkle_root := none, chunk_size := some 4096,
    is_active := true }

/-- The demo link after its one successful download. -/
def demo_link_after : ShareLink := increment_download_count 5 demo_link

/-- The decrypt_share result dictionary for the demo link. -/
def demo_share_result : DecryptShareResult :=
  { content := demo_str "hi", filename := "download",
    content_type := "application/octet-stream", hash_verified := true,
    merkle_verified := false, sensitivity_level := "internal",
    remaining_downloads := some 0 }

/-- The demo link protected with password "p@ss" and without download limit. -/
def demo_pw_link : ShareLink :=
  { demo_link with
    password_hash := some (hash_password demo_salt (demo_str "p@ss")),
    max_downloads := none }

/-- The demo link revoked. -/
def demo_inactive_link : ShareLink := { demo_link with is_active := false }

/- ==================================================================
   Counterexamples and witnesses
   ================================================================== -/

/-- C1 counterexample: the round trip fails for the empty plaintext — the
item encrypt_and_store produces has an empty ciphertext text, and
decrypt_data rejects it with ValueError("Data item is not encrypted")
instead of returning the plaintext with hash_verified = True. -/
theorem pipeline_round_trip_fails_on_empty :
    encrypt_and_store (mk_encryption_service seeded_policies 9) demo_key demo_nonce []
      .public 1 none = .ok demo_empty_item ∧
    decrypt_data (mk_encryption_service seeded_policies 9) demo_empty_item =
      .error (.valueError "Data item is not encrypted") := ⟨rfl, rfl⟩

theorem pipeline_round_trip_seeded_witness :
    (demo_str "ssn 123-45-6789" ≠ [] ∧ demo_key.length = 32) ∧
    (∃ item, encrypt_and_store (mk_encryption_service seeded_policies 9) demo_key demo_nonce
        (demo_str "ssn 123-45-6789") .highly_sensitive 1 none = .ok item ∧
      decrypt_data (mk_encryption_service seeded_policies 9) item =
        .ok { decrypted_text := demo_str "ssn 123-45-6789", hash_verified := true,
              signature_verified := some true }) :=
  ⟨⟨by decide, rfl⟩,
   pipeline_round_trip_seeded (demo_str "ssn 123-45-6789") .highly_sensitive 9 1 none demo_key
     demo_nonce (by decide) rfl (by decide) (by decide) (by decide)⟩

theorem merkle_proof_complete_sound_witness :
    (([10, 20, 30, 40, 50] : Bytes) ≠ [] ∧ 0 < 2 ∧
      2 < (split_into_chunks [10, 20, 30, 40, 50] 2).length) ∧
    (∃ p, generate_proof [10, 20, 30, 40, 50] 2 2 = .ok p ∧
      verify_proof p ((split_into_chunks [10, 20, 30, 40, 50] 2).getD 2 []) = true ∧
      ∀ wrong, sha256_hexdigest wrong ≠ p.chunk_hash → verify_proof p wrong = false) :=
  ⟨⟨by decide, by decide, by decide⟩,
   merkle_proof_complete_sound [10, 20, 30, 40, 50] 2 2 (by decide) (by decide) (by decide)⟩

theorem merkle_root_matches_spec_rule_witness :
    (([1, 2, 3] : Bytes) ≠ [] ∧ 0 < 2) ∧
    merkle_root [1, 2, 3] 2 = merkle_root_spec [1, 2, 3] 2 :=
  ⟨⟨by decide, by decide⟩, merkle_root_matches_spec_rule [1, 2, 3] 2 (by decide) (by decide)⟩

/-- C4 counterexample: on a concrete tampered input the raised exception is
the generic ValueError — not a distinct AuthenticationError kind, which
the source never raises. -/
theorem aead_failure_generic_error_kind :
    raises_authentication_error (aes_decrypt (b64encode [65, 66]) demo_key
      (b64encode demo_nonce) (b64encode (List.replicate 16 0))) = false ∧
    aes_decrypt (b64encode [65, 66]) demo_key (b64encode demo_nonce)
      (b64encode (List.replicate 16 0)) =
      .error (.valueError "Authentication failed: data may have been tampered with") :=
  ⟨rfl, rfl⟩

theorem aead_tag_mismatch_value_error_witness :
    ((demo_key.length = 16 ∨ demo_key.length = 24 ∨ demo_key.length = 32) ∧
      (b64decode (b64encode (List.replicate 16 0))).length = 16 ∧
      mac_bytes AES_ALG demo_key (b64decode (b64encode demo_nonce))
        (b64decode (b64encode [65, 66])) ≠ b64decode (b64encode (List.replicate 16 0))) ∧
    aes_decrypt (b64encode [65, 66]) demo_key (b64encode demo_nonce)
      (b64encode (List.replicate 16 0)) =
      .error (.valueError "Authentication failed: data may have been tampered with") :=
  ⟨⟨by decide, by decide, by decide⟩,
   ((aead_tag_mismatch_value_error (b64encode [65, 66]) demo_key (b64encode demo_nonce)
       (b64encode (List.replicate 16 0))).1 (by decide) (by decide)).1 (by decide)⟩

/-- C5 counterexample: decryption of a concrete hybrid payload with the
non-matching private key 2 raises the generic ValueError("Decryption
failed"), not a distinct KeyUnwrapError kind. -/
theorem hybrid_wrong_key_generic_error_kind :
    hybrid_encrypt demo_key demo_nonce (demo_str "hi") 1 = .ok demo_hybrid ∧
    raises_key_unwrap_error (hybrid_decrypt demo_hybrid.encrypted_data
      demo_hybrid.encrypted_key demo_hybrid.nonce demo_hybrid.tag 2) = false ∧
    hybrid_decrypt demo_hybrid.encrypted_data demo_hybrid.encrypted_key demo_hybrid.nonce
      demo_hybrid.tag 2 = .error (.valueError "Decryption failed") := ⟨rfl, rfl, rfl⟩

theorem hybrid_round_trip_and_wrong_key_witness :
    ((demo_key.length = 32) ∧
      (∃ r, hybrid_encrypt demo_key demo_nonce (demo_str "top secret") 1 = .ok r ∧
        ((1 : Nat) = 1 →
          hybrid_decrypt r.encrypted_data r.encrypted_key r.nonce r.tag 1 =
            .ok (demo_str "top secret")) ∧
        ((1 : Nat) ≠ 1 → 1 < 2 ^ 64 → 1 < 2 ^ 64 →
          hybrid_decrypt r.encrypted_data r.encrypted_key r.nonce r.tag 1 =
            .error (.valueError "Decryption failed")))) ∧
    (∃ r, hybrid_encrypt demo_key demo_nonce (demo_str "top secret") 1 = .ok r ∧
      ((2 : Nat) = 1 →
        hybrid_decrypt r.encrypted_data r.encrypted_key r.nonce r.tag 2 =
          .ok (demo_str "top secret")) ∧
      ((2 : Nat) ≠ 1 → 1 < 2 ^ 64 → 2 < 2 ^ 64 →
        hybrid_decrypt r.encrypted_data r.encrypted_key r.nonce r.tag 2 =
          .error (.valueError "Decryption failed"))) :=
  ⟨⟨rfl,
    hybrid_round_trip_and_wrong_key (demo_str "top secret") demo_key demo_nonce 1 1 rfl
      (by decide) (by decide) (by decide)⟩,
   hybrid_round_trip_and_wrong_key (demo_str "top secret") demo_key demo_nonce 1 2 rfl
     (by decide) (by decide) (by decide)⟩

/-- C6 counterexample: with no policy row at all, get_hash_algorithm returns
the silently substituted default "SHA-256" and get_mfa_requirement the
default NONE instead of surfacing a no-policy condition. -/
theorem policy_lookup_silent_default :
    get_policy [] "public" = none ∧
    get_hash_algorithm [] "public" = "SHA-256" ∧
    get_mfa_requirement [] "public" = .NONE := ⟨rfl, rfl, rfl⟩

theorem policy_lookup_failure_behavior_witness :
    get_policy [] SensitivityLevel.public.value = none ∧
    (encrypt_and_store (mk_encryption_service [] 9) demo_key demo_nonce (demo_str "x")
        .public 1 none =
      .error (.valueError ("No policy found for sensitivity level: " ++
        SensitivityLevel.public.value)) ∧
    get_hash_algorithm [] SensitivityLevel.public.value = "SHA-256" ∧
    get_mfa_requirement [] SensitivityLevel.public.value = .NONE) :=
  ⟨rfl, policy_lookup_failure_behavior [] .public 9 1 none demo_key demo_nonce (demo_str "x") rfl⟩

/-- C7 counterexample: a record whose AEAD decryption succeeds but whose
stored hash algorithm is unsupported makes decrypt_data raise — the
plaintext is withheld even though decryption succeeded, so the claim as
universally stated fails. -/
theorem decrypt_data_unsupported_hash_raises :
    aes_decrypt demo_item_md5.encrypted_content (b64decode demo_item_md5.encryption_key_id)
      demo_item_md5.nonce demo_item_md5.tag = .ok (demo_str "hi") ∧
    decrypt_data (mk_encryption_service seeded_policies 9) demo_item_md5 =
      .error (.valueError "Unsupported hash algorithm: MD5") := ⟨rfl, rfl⟩

theorem decrypt_returns_plaintext_on_verification_failure_witness :
    (verify_hash (demo_str "hi") demo_item_bad_hash.hash_value
      demo_item_bad_hash.hash_algorithm = .ok false) ∧
    decrypt_data (mk_encryption_service seeded_policies 9) demo_item_bad_hash =
      .ok { decrypted_text := demo_str "hi", hash_verified := false,
            signature_verified := none } :=
  ⟨rfl,
   (decrypt_returns_plaintext_on_verification_failure).1
     (mk_encryption_service seeded_policies 9) demo_item_bad_hash (demo_str "hi") false []
     (by decide) rfl rfl (fun h => absurd h (by decide))⟩

/-- C8 counterexample: the second attempt on an exhausted single-download
link raises the generic ValueError("Download limit reached"), not an
AccessDeniedError("limit reached") kind. -/
theorem download_limit_error_kind :
    share_raises_access_denied (decrypt_share 6 demo_link_after none) = false ∧
    decrypt_share 6 demo_link_after none =
      .error (.valueError "Download limit reached", demo_link_after) := ⟨rfl, rfl⟩

theorem download_limit_exactness_witness :
    (demo_link.max_downloads = some 1 ∧
      decrypt_share 5 demo_link none = .ok (demo_share_result, demo_link_after) ∧
      demo_link.download_count = 0 ∧ demo_link_after.download_count = 1) ∧
    decrypt_share 6 demo_link_after none =
      .error (.valueError "Download limit reached", demo_link_after) :=
  ⟨⟨rfl, rfl,
    ((download_limit_exactness).1 5 demo_link none demo_share_result demo_link_after rfl rfl).1,
    ((download_limit_exactness).1 5 demo_link none demo_share_result demo_link_after
      rfl rfl).2.1⟩,
   (download_limit_exactness).2 6 demo_link_after none rfl (by decide) rfl⟩

/-- C9 counterexample: a wrong password on an otherwise accessible link is
rejected with the generic ValueError("Incorrect password") — not an
AccessDeniedError("incorrect password") kind — and a missing password
yields the different reason ValueError("Password required"), not the
claimed "incorrect password". -/
theorem password_gate_error_kind :
    share_raises_access_denied (decrypt_share 0 demo_pw_link (some (demo_str "wrong"))) =
      false ∧
    decrypt_share 0 demo_pw_link (some (demo_str "wrong")) =
      .error (.valueError "Incorrect password", demo_pw_link) ∧
    decrypt_share 0 demo_pw_link none =
      .error (.valueError "Password required", demo_pw_link) := ⟨rfl, rfl, rfl⟩

theorem password_gate_behavior_witness :
    (verify_password (demo_str "wrong") (hash_password demo_salt (demo_str "p@ss")) = false ∧
      verify_password (demo_str "p@ss") (hash_password demo_salt (demo_str "p@ss")) = true) ∧
    decrypt_share 0 demo_pw_link (some (demo_str "wrong")) =
      .error (.valueError "Incorrect password", demo_pw_link) ∧
    (∃ r, decrypt_share 0 demo_pw_link (some (demo_str "p@ss")) =
        .ok (r, increment_download_count 0 demo_pw_link) ∧
      (increment_download_count 0 demo_pw_link).download_count = 1) :=
  ⟨⟨rfl, rfl⟩,
   (password_gate_behavior).1 0 demo_pw_link (demo_str "wrong")
     (hash_password demo_salt (demo_str "p@ss")) rfl (by decide) rfl (by decide) rfl,
   (password_gate_behavior).2.2 0 demo_pw_link (demo_str "p@ss")
     (hash_password demo_salt (demo_str "p@ss")) (demo_str "hi") true rfl (by decide) rfl
     (by decide) rfl rfl rfl (by decide) rfl⟩

theorem decrypt_share_error_preserves_state_witness :
    decrypt_share 0 demo_inactive_link none =
      .error (.valueError "Share link is no longer active", demo_inactive_link) ∧
    demo_inactive_link = demo_inactive_link :=
  ⟨rfl, decrypt_share_error_preserves_state 0 demo_inactive_link none
    (.valueError "Share link is no longer active") demo_inactive_link rfl⟩
